import Mathlib

/-!
Shallow embedding of `src/scrapyjs/middleware.py` (the scrapyjs Splash
downloader middleware).

Python dictionaries (request `meta`, the `splash` options mapping, `args`)
are modelled as association lists from `String` keys to `Val`, an inductive
type of Python values.  Mutation of the dictionaries is made explicit by
threading the updated dictionaries through the pipeline; the aliasing of
`meta['_splash_processed']` with the (subsequently mutated) options dict is
resolved by materializing the marker after the last mutation of the options
dict, which is observationally equivalent because nothing reads the marker
in between.

External library functions used by the middleware are modelled for the
input shapes the middleware feeds them:
* `urlparse.urljoin` / `urlparse.urlparse` (Python 2.7): modelled for URLs
  without query (`?`), fragment (`#`) and parameter (`;`) components, which
  the middleware never produces in the joined position;
* `json.dumps(..., ensure_ascii=False)`: modelled for `Val` values; the
  textual form of non-integer numbers (Python float repr) is not modelled,
  no theorem below depends on it;
* `w3lib.http.basic_auth_header`: standard basic auth header with base64;
* numeric coercion `float(x)`: modelled for numbers and booleans; Python's
  parsing of numeric strings is not modelled (no theorem depends on it).

Failures that would be Python exceptions (AttributeError, TypeError,
ValueError, IndexError, NotConfigured) are modelled with `Except String`.
-/

namespace ScrapyJS

/-- A Python value as stored in request meta and in the splash options. -/
inductive Val where
  | vNone : Val
  | vBool : Bool → Val
  | vNum : ℚ → Val
  | vStr : String → Val
  | vDict : List (String × Val) → Val

/-- A Python dict with string keys, as an insertion-ordered association list. -/
abbrev Dict := List (String × Val)

namespace Dict

/-- `d.get(k)` / `d[k]` lookup: first (unique) binding of `k`. -/
def get (d : Dict) (k : String) : Option Val :=
  match d with
  | [] => none
  | (k2, v) :: rest => if k2 = k then some v else get rest k

/-- `k in d`. -/
def hasKey (d : Dict) (k : String) : Bool :=
  (get d k).isSome

/-- `d[k] = v`: replace the binding in place, or append a new binding. -/
def set (d : Dict) (k : String) (v : Val) : Dict :=
  match d with
  | [] => [(k, v)]
  | (k2, v2) :: rest => if k2 = k then (k2, v) :: rest else (k2, v2) :: set rest k v

/-- `del d[k]`. -/
def del (d : Dict) (k : String) : Dict :=
  match d with
  | [] => []
  | (k2, v2) :: rest => if k2 = k then del rest k else (k2, v2) :: del rest k

/-- `d.setdefault(k, v)`: returns the stored value and the updated dict. -/
def setdefault (d : Dict) (k : String) (v : Val) : Val × Dict :=
  match get d k with
  | some w => (w, d)
  | none => (v, set d k v)

/-- `d.update(o)` for a dict argument `o`. -/
def update (d : Dict) (o : Dict) : Dict :=
  o.foldl (fun acc kv => set acc kv.1 kv.2) d

end Dict

/-- Python truthiness of a `Val` (`if not splash_options`, `if meta.get('proxy')`). -/
def Val.truthy : Val → Bool
  | .vNone => false
  | .vBool b => b
  | .vNum q => if q = 0 then false else true
  | .vStr s => if s = "" then false else true
  | .vDict d => if d.isEmpty then false else true

/-! ### `json.dumps(args, ensure_ascii=False)` -/

def hexDigit (n : Nat) : Char :=
  "0123456789abcdef".toList.getD n '0'

def hex4 (n : Nat) : String :=
  String.mk [hexDigit (n / 4096 % 16), hexDigit (n / 256 % 16),
             hexDigit (n / 16 % 16), hexDigit (n % 16)]

/-- JSON escaping of one character (`ensure_ascii=False`: non-ASCII kept). -/
def jsonEscapeChar (c : Char) : String :=
  if c = '"' then "\\\""
  else if c = '\\' then "\\\\"
  else if c = '\n' then "\\n"
  else if c = '\r' then "\\r"
  else if c = '\t' then "\\t"
  else if c = '\x08' then "\\b"
  else if c = '\x0c' then "\\f"
  else if c.toNat < 32 then "\\u" ++ hex4 c.toNat
  else String.mk [c]

def jsonEscape (s : String) : String :=
  String.join (s.toList.map jsonEscapeChar)

/-- Python prints integral numbers the way `json` prints Python ints; the
repr of non-integral floats is not modelled (unused by the middleware's
observable behavior in the claims). -/
def jsonDumpNum (q : ℚ) : String :=
  if q.den = 1 then toString q.num else toString q

mutual

/-- `json.dumps(v, ensure_ascii=False)` with the default separators. -/
def jsonDumpVal : Val → String
  | .vNone => "null"
  | .vBool true => "true"
  | .vBool false => "false"
  | .vNum q => jsonDumpNum q
  | .vStr s => "\"" ++ jsonEscape s ++ "\""
  | .vDict d => "\x7b" ++ jsonDumpEntries d ++ "\x7d"

def jsonDumpEntries : List (String × Val) → String
  | [] => ""
  | [kv] => jsonDumpEntry kv
  | kv :: rest => jsonDumpEntry kv ++ ", " ++ jsonDumpEntries rest

def jsonDumpEntry : String × Val → String
  | (k, v) => "\"" ++ jsonEscape k ++ "\": " ++ jsonDumpVal v

end

/-! ### String helpers (kernel-computable stand-ins for library functions) -/

def lowerChar (c : Char) : Char :=
  if 'A' ≤ c ∧ c ≤ 'Z' then Char.ofNat (c.toNat + 32) else c

def strToLower (s : String) : String :=
  String.mk (s.toList.map lowerChar)

def listStartsWith : List Char → List Char → Bool
  | _, [] => true
  | [], _ :: _ => false
  | c :: cs, p :: ps => if c = p then listStartsWith cs ps else false

def strStartsWith (s p : String) : Bool :=
  listStartsWith s.toList p.toList

/-- Split on every occurrence of a one-character separator, keeping empty
pieces (`'a/b'.split('/')` semantics). -/
def splitOnChar (sep : Char) : List Char → List (List Char)
  | [] => [[]]
  | c :: rest =>
      let r := splitOnChar sep rest
      if c = sep then [] :: r
      else
        match r with
        | h :: t => (c :: h) :: t
        | [] => [[c]]

def strSplitOn (s : String) (sep : Char) : List String :=
  (splitOnChar sep s.toList).map String.mk

/-! ### `urlparse.urljoin` (Python 2.7), for URLs without `?`, `#`, `;` -/

def scheme_chars : List Char :=
  "abcdefghijklmnopqrstuvwxyzABCDEFGHIJKLMNOPQRSTUVWXYZ0123456789+-.".toList

/-- Scheme detection of Python 2.7 `urlsplit`: a leading `name:` is a scheme
when `name` consists of scheme characters and the remainder is not a pure
port number (with a fast path for `http`). -/
def splitScheme (url : String) : Option (String × String) :=
  match url.toList.findIdx? (· = ':') with
  | none => none
  | some 0 => none
  | some i =>
      let pre : List Char := url.toList.take i
      let rest : List Char := url.toList.drop (i + 1)
      if String.mk pre = "http" then some ("http", String.mk rest)
      else if pre.all (fun c => scheme_chars.contains c) &&
              (rest.isEmpty || rest.any (fun c => !c.isDigit)) then
        some (strToLower (String.mk pre), String.mk rest)
      else none

/-- Netloc splitting: after `//`, up to the next `/`. -/
def splitNetloc (s : String) : String × String :=
  if strStartsWith s "//" then
    let rest := s.drop 2
    match rest.toList.findIdx? (· = '/') with
    | none => (rest, "")
    | some i => (String.mk (rest.toList.take i), String.mk (rest.toList.drop i))
  else ("", s)

structure SplitUrl where
  scheme : String
  netloc : String
  path : String

/-- `urlparse(url, defaultScheme)` restricted to scheme/netloc/path. -/
def urlsplit (url : String) (defaultScheme : String) : SplitUrl :=
  match splitScheme url with
  | some (sc, rest) =>
      let np := splitNetloc rest
      ⟨sc, np.1, np.2⟩
  | none =>
      let np := splitNetloc url
      ⟨defaultScheme, np.1, np.2⟩

/-- `urlunsplit` restricted to scheme/netloc/path. -/
def urlunsplit (scheme netloc path : String) : String :=
  let u :=
    if netloc ≠ "" ∨ strStartsWith path "//" = true then
      "//" ++ netloc ++ (if path ≠ "" ∧ ¬ strStartsWith path "/" = true then "/" ++ path else path)
    else path
  if scheme ≠ "" then scheme ++ ":" ++ u else u

/-- One pass of Python's `..`-collapsing loop: find the first inner `..`
whose predecessor is a normal segment and delete both. -/
def dotdotStep : List String → Option (List String)
  | a :: b :: rest =>
      if b = ".." ∧ a ≠ "" ∧ a ≠ ".." ∧ rest ≠ [] then some rest
      else
        match dotdotStep (b :: rest) with
        | some l => some (a :: l)
        | none => none
  | _ => none

def dotdotLoop : Nat → List String → List String
  | 0, l => l
  | n + 1, l =>
      match dotdotStep l with
      | none => l
      | some l2 => dotdotLoop n l2

/-- Relative-path resolution of Python 2.7 `urljoin` (the `segments` block). -/
def joinSegments (bpath path : String) : String :=
  let segs := (strSplitOn bpath '/').dropLast ++ strSplitOn path '/'
  let segs := if segs.getLast? = some "." then segs.dropLast ++ [""] else segs
  let segs := segs.filter (· != ".")
  let segs := dotdotLoop segs.length segs
  let segs :=
    if segs = ["", ".."] then ["", ""]
    else if 2 ≤ segs.length ∧ segs.getLast? = some ".." then
      segs.dropLast.dropLast ++ [""]
    else segs
  String.intercalate "/" segs

def uses_relative : List String :=
  ["ftp", "http", "gopher", "nntp", "imap", "wais", "file", "https", "shttp",
   "mms", "prospero", "rtsp", "rtspu", "", "sftp", "svn", "svn+ssh"]

def uses_netloc : List String :=
  ["ftp", "http", "gopher", "nntp", "telnet", "imap", "wais", "file", "mms",
   "https", "shttp", "snews", "prospero", "rtsp", "rtspu", "rsync", "",
   "svn", "svn+ssh", "sftp", "nfs", "git", "git+ssh"]

/-- Python 2.7 `urlparse.urljoin`, for inputs without `?`, `#`, `;`. -/
def urljoin (base url : String) : String :=
  if base = "" then url
  else if url = "" then base
  else
    let b := urlsplit base ""
    let u := urlsplit url b.scheme
    if u.scheme ≠ b.scheme ∨ uses_relative.contains u.scheme = false then url
    else if uses_netloc.contains u.scheme = true ∧ u.netloc ≠ "" then
      urlunsplit u.scheme u.netloc u.path
    else
      let netloc := if uses_netloc.contains u.scheme = true then b.netloc else u.netloc
      if strStartsWith u.path "/" then urlunsplit u.scheme netloc u.path
      else if u.path = "" then urlunsplit u.scheme netloc b.path
      else urlunsplit u.scheme netloc (joinSegments b.path u.path)

/-! ### `urlparse(...)`: `.hostname` and `.port` (Python 2.7) -/

/-- `int(s, 10)` for nonempty all-digit strings (Python also accepts signs
and surrounding whitespace; those raise no claim here). -/
def parseDigits (s : String) : Option Nat :=
  if s.toList ≠ [] ∧ s.toList.all (fun c => c.isDigit) then
    some (s.toList.foldl (fun n c => n * 10 + (c.toNat - 48)) 0)
  else none

/-- `urlparse(proxy).hostname` and `.port`.  `int()` failure on a malformed
port is a ValueError. -/
def parseHostPort (proxyUrl : String) : Except String (Option String × Option Nat) := do
  let parts := urlsplit proxyUrl ""
  let afterAt := (strSplitOn parts.netloc '@').getLastD ""
  let hp := strSplitOn afterAt ':'
  let host := strToLower (hp.headD "")
  let hostname : Option String := if host = "" then none else some host
  let port ←
    if hp.length = 2 then
      match parseDigits (hp.getD 1 "") with
      | some n => Except.ok (some n)
      | none => Except.error "ValueError: invalid port"
    else
      Except.ok none
  Except.ok (hostname, port)

/-! ### `w3lib.http.basic_auth_header` -/

def base64Chars : List Char :=
  "ABCDEFGHIJKLMNOPQRSTUVWXYZabcdefghijklmnopqrstuvwxyz0123456789+/".toList

def b64Char (n : Nat) : Char := base64Chars.getD n 'A'

def b64Encode : List Nat → String
  | [] => ""
  | [a] =>
      String.mk [b64Char (a / 4), b64Char (a % 4 * 16)] ++ "=="
  | [a, b] =>
      String.mk [b64Char (a / 4), b64Char (a % 4 * 16 + b / 16), b64Char (b % 16 * 4)] ++ "="
  | a :: b :: c :: rest =>
      String.mk [b64Char (a / 4), b64Char (a % 4 * 16 + b / 16),
                 b64Char (b % 16 * 4 + c / 64), b64Char (c % 64)] ++ b64Encode rest

/-- `basic_auth_header(username, password)`. -/
def basic_auth_header (user passwd : String) : String :=
  "Basic " ++ b64Encode (((user ++ ":" ++ passwd).toUTF8.toList).map (fun b => b.toNat))

/-! ### The middleware: data model -/

namespace SlotPolicy

def PER_DOMAIN : String := "per_domain"
def SINGLE_SLOT : String := "single_slot"
def SCRAPY_DEFAULT : String := "scrapy_default"

/-- `SlotPolicy._known`. -/
def known : List String := [PER_DOMAIN, SINGLE_SLOT, SCRAPY_DEFAULT]

end SlotPolicy

/-- A scrapy Request: headers map each name to its list of values. -/
structure Request where
  url : String
  method : String
  headers : List (String × List String)
  body : String
  meta : Dict

/-- The crawler settings consumed by the middleware. -/
structure Settings where
  SPLASH_URL : Option String
  SPLASH_SLOT_POLICY : Option String
  SPLASH_USER : Option String
  SPLASH_PASS : Option String

/-- The middleware state after `__init__` (all immutable afterwards).
`getSlotKey` stands for the external
`crawler.engine.downloader._get_slot_key(request, None)`. -/
structure Config where
  splash_base_url : String
  slot_policy : String
  splash_auth : Option String
  getSlotKey : Request → String

def default_splash_url : String := "http://127.0.0.1:8050"
def default_endpoint : String := "render.json"
def splash_extra_timeout : ℚ := 5
def default_policy : String := SlotPolicy.PER_DOMAIN

/-- `SplashMiddleware.__init__`: the auth header is present when the
`SPLASH_USER` setting is truthy. -/
def mkSplashAuth (s : Settings) : Option String :=
  match s.SPLASH_USER with
  | some u => if u = "" then none else some (basic_auth_header u (s.SPLASH_PASS.getD ""))
  | none => none

/-- `SplashMiddleware.from_crawler`: resolves settings, validates the slot
policy (raising `NotConfigured` on an unknown name) and constructs the
middleware. -/
def from_crawler (s : Settings) (getSlotKey : Request → String) : Except String Config :=
  let splash_base_url := s.SPLASH_URL.getD default_splash_url
  let slot_policy := s.SPLASH_SLOT_POLICY.getD default_policy
  if slot_policy ∈ SlotPolicy.known then
    Except.ok
      { splash_base_url := splash_base_url
        slot_policy := slot_policy
        splash_auth := mkSplashAuth s
        getSlotKey := getSlotKey }
  else
    Except.error ("NotConfigured: Incorrect slot policy: \x27" ++ slot_policy ++ "\x27")

/-- What `process_request` hands back to Scrapy. -/
inductive MwResult where
  | passThrough
  | warnPassThrough
  | rewritten : Request → MwResult

/-- Result of one `process_request` call: the returned value, the (possibly
mutated in place) meta of the original request, and the stat keys
incremented. -/
structure ProcOut where
  result : MwResult
  reqMeta : Dict
  stats : List String

/-! ### The middleware: `process_request` pipeline -/

/-- `SplashMiddleware._set_download_slot`. -/
def set_download_slot (cfg : Config) (req : Request) (meta : Dict) (policy : Val) : Dict :=
  match policy with
  | .vStr p =>
      if p = SlotPolicy.PER_DOMAIN then Dict.set meta "download_slot" (.vStr (cfg.getSlotKey req))
      else if p = SlotPolicy.SINGLE_SLOT then Dict.set meta "download_slot" (.vStr "__splash__")
      else meta
  | _ => meta

/-- One entry of `headers_as_lua_list`: `'["%s"] = "%s"' % (k, v[0])`;
`v[0]` on an empty value list is an IndexError. -/
def headerLuaEntry (k : String) (vs : List String) : Except String String :=
  match vs with
  | [] => Except.error "IndexError: header with no values"
  | v :: _ => Except.ok ("[\"" ++ k ++ "\"] = \"" ++ v ++ "\"")

def headerLuaEntries : List (String × List String) → Except String (List String)
  | [] => Except.ok []
  | (k, vs) :: rest => do
      let e ← headerLuaEntry k vs
      let es ← headerLuaEntries rest
      Except.ok (e :: es)

/-- `headers_as_lua_list` from `setup_variables_for_proxy_usage`. -/
def headers_as_lua_list (headers : List (String × List String)) : Except String String := do
  let es ← headerLuaEntries headers
  Except.ok (String.intercalate ",\n" es)

/-- Python `'%s' % v` for the values fed into the Lua template.  The repr
of non-integral floats and of containers is not modelled (no theorem
depends on it). -/
def Val.pyStr : Val → String
  | .vNone => "None"
  | .vBool true => "True"
  | .vBool false => "False"
  | .vNum q => jsonDumpNum q
  | .vStr s => s
  | .vDict _ => "<dict repr not modelled>"

/-- `baseurl_as_lua_str` from `setup_variables_for_proxy_usage`. -/
def baseurl_as_lua_str (args : Dict) : String :=
  match Dict.get args "baseurl" with
  | some v => if v.truthy then "\"" ++ v.pyStr ++ "\"" else "nil"
  | none => "nil"

/-- The Lua script template of `setup_variables_for_proxy_usage`, with the
four `%s` substitutions applied. -/
def proxyScript (host port headerList baseurl : String) : String :=
  "\n        function main(splash)\n            splash:on_request(function(request)\n                request:set_proxy\x7b\n                    host = \"" ++
  (host ++
  ("\",\n                    port = " ++
  (port ++
  (",\n                \x7d\n            end)\n\n            splash:set_custom_headers(\x7b " ++
  (headerList ++
  (" \x7d)\n\n            assert(splash:go\x7bsplash.args.url, baseurl=" ++
  (baseurl ++
  "\x7d)\n            return splash:html()\n        end\n        ")))))))

/-- `SplashMiddleware.setup_variables_for_proxy_usage`: synthesizes the Lua
proxy script into `args['lua_source']`, forces the `execute` endpoint and
deletes the proxy directive from meta.  `pv` is the (truthy) value of
`meta['proxy']`. -/
def setup_variables_for_proxy_usage (args meta so : Dict)
    (headers : List (String × List String)) (pv : Val) :
    Except String (Dict × Dict × Dict) :=
  match pv with
  | .vStr proxyUrl =>
      parseHostPort proxyUrl >>= fun hp =>
      headers_as_lua_list headers >>= fun hlist =>
      Except.ok (Dict.set args "lua_source" (.vStr (proxyScript
          (match hp.1 with | some h => h | none => "None")
          (match hp.2 with | some p => toString p | none => "None")
          hlist (baseurl_as_lua_str args))),
        Dict.del meta "proxy", Dict.set so "endpoint" (.vStr "execute"))
  | _ => Except.error "AttributeError: proxy value is not a string"

/-- `float(x)` for the values that can appear as `args['timeout']`.
Python's parsing of numeric strings is not modelled. -/
def floatOfVal : Val → Except String ℚ
  | .vNum q => Except.ok q
  | .vBool b => Except.ok (if b then 1 else 0)
  | _ => Except.error "TypeError: float() argument"

/-- `meta.get('download_timeout', 1e6)` as a number.  Python 2 would order
non-numeric values by type name; that exotic case is not modelled. -/
def currentDownloadTimeout (meta : Dict) : Except String ℚ :=
  match Dict.get meta "download_timeout" with
  | none => Except.ok 1000000
  | some (.vNum q) => Except.ok q
  | some (.vBool b) => Except.ok (if b then 1 else 0)
  | some _ => Except.error "non-numeric download_timeout comparison not modelled"

/-- The `if 'timeout' in args` block of `process_request`: raise
`download_timeout` to `float(args['timeout']) + splash_extra_timeout` when
the current value (sentinel `1e6` when absent) is smaller. -/
def applyTimeout (meta args : Dict) : Except String Dict :=
  match Dict.get args "timeout" with
  | none => Except.ok meta
  | some tv =>
      currentDownloadTimeout meta >>= fun tcur =>
      floatOfVal tv >>= fun t0 =>
      if tcur < t0 + splash_extra_timeout then
        Except.ok (Dict.set meta "download_timeout" (.vNum (t0 + splash_extra_timeout)))
      else Except.ok meta

/-- `splash_options.setdefault('endpoint', self.default_endpoint)`; a
non-string endpoint would fail in `urljoin`/`%`. -/
def resolveEndpoint (so : Dict) : Except String (String × Dict) :=
  match Dict.setdefault so "endpoint" (.vStr default_endpoint) with
  | (.vStr e, so2) => Except.ok (e, so2)
  | _ => Except.error "TypeError: endpoint is not a string"

/-- `splash_options.get('splash_url', self.splash_base_url)`; a non-string
base would fail in `urljoin`. -/
def resolveBase (cfg : Config) (so : Dict) : Except String String :=
  match (Dict.get so "splash_url").getD (.vStr cfg.splash_base_url) with
  | .vStr b => Except.ok b
  | _ => Except.error "TypeError: splash base url is not a string"

/-- `splash_options.get('meta', {})` as fed to `dict.update`. -/
def resolveMetaOverride (so : Dict) : Except String Dict :=
  match Dict.get so "meta" with
  | none => Except.ok []
  | some (.vDict d) => Except.ok d
  | some _ => Except.error "TypeError: meta override is not a dict"

/-- Headers of the rewritten request: `{'Content-Type': 'application/json'}`
plus `Authorization` when auth is configured. -/
def rewrittenHeaders (cfg : Config) : List (String × List String) :=
  match cfg.splash_auth with
  | some a => [("Content-Type", ["application/json"]), ("Authorization", [a])]
  | none => [("Content-Type", ["application/json"])]

/-- Stat key incremented for a rewritten request. -/
def requestCountKey (endpoint : String) : String :=
  "splash/" ++ endpoint ++ "/request_count"

/-- Tail of `process_request` after the proxy step: body serialization,
timeout reconciliation, endpoint/base resolution, meta merge and the
`request.replace(...)` call.  `so`/`meta`/`args` are the current values of
the aliased `splash_options` / `request.meta` / `args` dicts; the
`_splash_processed` marker (stored before, aliasing `splash_options`) is
materialized here, after the final mutation of `splash_options`. -/
def finishRewrite (cfg : Config) (so meta args : Dict) :
    Except String ProcOut :=
  applyTimeout meta args >>= fun mt =>
  resolveEndpoint (Dict.set so "args" (.vDict args)) >>= fun eps =>
  resolveBase cfg eps.2 >>= fun base =>
  resolveMetaOverride eps.2 >>= fun ov =>
  Except.ok ⟨.rewritten
    { url := urljoin base eps.1
      method := "POST"
      headers := rewrittenHeaders cfg
      body := jsonDumpVal (.vDict args)
      meta := Dict.update (Dict.set mt "_splash_processed" (.vDict eps.2)) ov },
    Dict.set mt "_splash_processed" (.vDict eps.2),
    [requestCountKey eps.1]⟩

/-- Body of `process_request` once a truthy `splash` dict was found on a GET
request: delete the attachment, set the marker, assign the download slot,
default `args['url']`, run the proxy rewrite when a truthy proxy directive
is present, then finish the rewrite. -/
def rewriteSplash (cfg : Config) (req : Request) (so : Dict) : Except String ProcOut :=
  let meta := Dict.del req.meta "splash"
  let policy := (Dict.get so "slot_policy").getD (.vStr cfg.slot_policy)
  let meta := set_download_slot cfg req meta policy
  match Dict.setdefault so "args" (.vDict []) with
  | (.vDict a, so) =>
      let args := if Dict.hasKey a "url" then a else Dict.set a "url" (.vStr req.url)
      match Dict.get meta "proxy" with
      | some pv =>
          if pv.truthy then
            match setup_variables_for_proxy_usage args meta so req.headers pv with
            | .ok (args2, meta2, so2) => finishRewrite cfg so2 meta2 args2
            | .error e => Except.error e
          else finishRewrite cfg so meta args
      | none => finishRewrite cfg so meta args
  | (_, _) => Except.error "AttributeError: args is not a dict"

/-- `SplashMiddleware.process_request`.  Returns `passThrough` (Python
`None`) when no truthy `splash` attachment is present, `warnPassThrough`
(the warning log plus `return request`) for non-GET requests, and a
`rewritten` request otherwise. -/
def process_request (cfg : Config) (req : Request) : Except String ProcOut :=
  match Dict.get req.meta "splash" with
  | none => Except.ok ⟨.passThrough, req.meta, []⟩
  | some sval =>
      if sval.truthy = false then Except.ok ⟨.passThrough, req.meta, []⟩
      else if req.method ≠ "GET" then Except.ok ⟨.warnPassThrough, req.meta, []⟩
      else
        match sval with
        | .vDict so => rewriteSplash cfg req so
        | _ => Except.error "AttributeError: splash options value is not a mapping"

/-! ### Basic lemmas about the dictionary model -/

@[simp] theorem exceptOkBind {α β : Type} (v : α) (f : α → Except String β) :
    (Except.ok v >>= f) = f v := rfl

@[simp] theorem exceptErrBind {α β : Type} (e : String) (f : α → Except String β) :
    ((Except.error e : Except String α) >>= f) = Except.error e := rfl

theorem exceptBindInv {α β : Type} {x : Except String α} {f : α → Except String β}
    {out : β} (h : (x >>= f) = Except.ok out) : ∃ v, x = Except.ok v ∧ f v = Except.ok out := by
  cases x with
  | error e => simp at h
  | ok v => exact ⟨v, rfl, h⟩

namespace Dict

theorem get_set_self (d : Dict) (k : String) (v : Val) :
    get (set d k v) k = some v := by
  induction d with
  | nil => simp [set, get]
  | cons kv rest ih =>
      by_cases h : kv.1 = k <;> simp [set, get, h, ih]

theorem get_set_ne (d : Dict) (k k2 : String) (v : Val) (h : k ≠ k2) :
    get (set d k v) k2 = get d k2 := by
  induction d with
  | nil => simp [set, get, h]
  | cons kv rest ih =>
      by_cases h2 : kv.1 = k
      · subst h2; simp [set, get, h, ih]
      · simp [set, get, h2, ih]

theorem get_del_self (d : Dict) (k : String) : get (del d k) k = none := by
  induction d with
  | nil => simp [del, get]
  | cons kv rest ih =>
      by_cases h : kv.1 = k <;> simp [del, get, h, ih]

theorem get_del_ne (d : Dict) (k k2 : String) (h : k ≠ k2) :
    get (del d k) k2 = get d k2 := by
  induction d with
  | nil => simp [del, get]
  | cons kv rest ih =>
      by_cases h2 : kv.1 = k
      · subst h2; simp [del, get, h, ih]
      · simp [del, get, h2, ih]

@[simp] theorem update_nil (d : Dict) : update d [] = d := rfl

theorem update_cons (d : Dict) (kv : String × Val) (o : Dict) :
    update d (kv :: o) = update (set d kv.1 kv.2) o := rfl

theorem get_update_of_get_none (d o : Dict) (k : String) (h : get o k = none) :
    get (update d o) k = get d k := by
  induction o generalizing d with
  | nil => rfl
  | cons kv o ih =>
      have h1 : kv.1 ≠ k := by
        intro he
        simp [get, he] at h
      have h2 : get o k = none := by
        simpa [get, h1] using h
      rw [update_cons, ih _ h2, get_set_ne _ _ _ _ h1]

theorem get_setdefault_snd_ne (d : Dict) (k k2 : String) (v : Val) (h : k ≠ k2) :
    get (setdefault d k v).2 k2 = get d k2 := by
  unfold setdefault
  cases hg : get d k with
  | some w => rfl
  | none => simpa using get_set_ne d k k2 v h

theorem ne_nil_of_get_some {d : Dict} {k : String} {v : Val}
    (h : get d k = some v) : d.isEmpty = false := by
  cases d with
  | nil => simp [get] at h
  | cons kv rest => rfl

end Dict

/-- An unknown (or `scrapy_default`) slot policy leaves meta untouched. -/
theorem set_download_slot_other (cfg : Config) (req : Request) (m : Dict) (p : String)
    (h1 : p ≠ SlotPolicy.PER_DOMAIN) (h2 : p ≠ SlotPolicy.SINGLE_SLOT) :
    set_download_slot cfg req m (.vStr p) = m := by
  simp [set_download_slot, h1, h2]

/-- `_set_download_slot` touches no key other than `download_slot`. -/
theorem get_set_download_slot_ne (cfg : Config) (req : Request) (m : Dict) (pol : Val)
    (k : String) (h : k ≠ "download_slot") :
    Dict.get (set_download_slot cfg req m pol) k = Dict.get m k := by
  unfold set_download_slot
  cases pol with
  | vStr p =>
      by_cases h1 : p = SlotPolicy.PER_DOMAIN
      · simp [h1, Dict.get_set_ne _ _ _ _ (Ne.symm h)]
      · by_cases h2 : p = SlotPolicy.SINGLE_SLOT
        · simp [h1, h2, show SlotPolicy.SINGLE_SLOT ≠ SlotPolicy.PER_DOMAIN from by decide,
                Dict.get_set_ne _ _ _ _ (Ne.symm h)]
        · simp [h1, h2]
  | vNone => rfl
  | vBool b => rfl
  | vNum q => rfl
  | vDict d => rfl

/-! ### Pipeline reduction lemmas -/

theorem process_request_eq_rewrite (cfg : Config) (req : Request) (so : Dict)
    (hm : req.method = "GET")
    (hsp : Dict.get req.meta "splash" = some (.vDict so))
    (hne : so.isEmpty = false) :
    process_request cfg req = rewriteSplash cfg req so := by
  simp [process_request, hsp, Val.truthy, hne, hm]

theorem rewriteSplash_noproxy (cfg : Config) (req : Request) (so a : Dict)
    (hargs : Dict.get so "args" = some (.vDict a))
    (hproxy : Dict.get req.meta "proxy" = none) :
    rewriteSplash cfg req so =
      finishRewrite cfg so
        (set_download_slot cfg req (Dict.del req.meta "splash")
          ((Dict.get so "slot_policy").getD (.vStr cfg.slot_policy)))
        (if Dict.hasKey a "url" = true then a else Dict.set a "url" (.vStr req.url)) := by
  have hsd : Dict.setdefault so "args" (.vDict []) = (.vDict a, so) := by
    simp [Dict.setdefault, hargs]
  have hp : Dict.get (set_download_slot cfg req (Dict.del req.meta "splash")
      ((Dict.get so "slot_policy").getD (.vStr cfg.slot_policy))) "proxy" = none := by
    rw [get_set_download_slot_ne _ _ _ _ _ (by decide),
        Dict.get_del_ne _ _ _ (by decide), hproxy]
  simp [rewriteSplash, hsd, hp]

theorem rewriteSplash_noargs_noproxy (cfg : Config) (req : Request) (so : Dict)
    (hargs : Dict.get so "args" = none)
    (hproxy : Dict.get req.meta "proxy" = none) :
    rewriteSplash cfg req so =
      finishRewrite cfg (Dict.set so "args" (.vDict []))
        (set_download_slot cfg req (Dict.del req.meta "splash")
          ((Dict.get so "slot_policy").getD (.vStr cfg.slot_policy)))
        [("url", .vStr req.url)] := by
  have hsd : Dict.setdefault so "args" (.vDict []) =
      (.vDict [], Dict.set so "args" (.vDict [])) := by
    simp [Dict.setdefault, hargs]
  have hp : Dict.get (set_download_slot cfg req (Dict.del req.meta "splash")
      ((Dict.get so "slot_policy").getD (.vStr cfg.slot_policy))) "proxy" = none := by
    rw [get_set_download_slot_ne _ _ _ _ _ (by decide),
        Dict.get_del_ne _ _ _ (by decide), hproxy]
  simp [rewriteSplash, hsd, hp, Dict.hasKey, Dict.get, Dict.set]

theorem finishRewrite_spec (cfg : Config) (so meta args mt : Dict)
    (ht : applyTimeout meta args = Except.ok mt)
    (hend : Dict.get so "endpoint" = none)
    (hsu : Dict.get so "splash_url" = none)
    (hov : Dict.get so "meta" = none) :
    finishRewrite cfg so meta args =
      Except.ok ⟨.rewritten
        { url := urljoin cfg.splash_base_url default_endpoint
          method := "POST"
          headers := rewrittenHeaders cfg
          body := jsonDumpVal (.vDict args)
          meta := Dict.set mt "_splash_processed"
            (.vDict (Dict.set (Dict.set so "args" (.vDict args)) "endpoint"
              (.vStr default_endpoint))) },
        Dict.set mt "_splash_processed"
          (.vDict (Dict.set (Dict.set so "args" (.vDict args)) "endpoint"
            (.vStr default_endpoint))),
        [requestCountKey default_endpoint]⟩ := by
  have h1 : Dict.get (Dict.set so "args" (.vDict args)) "endpoint" = none := by
    rw [Dict.get_set_ne _ _ _ _ (by decide)]; exact hend
  have hre : resolveEndpoint (Dict.set so "args" (.vDict args)) =
      Except.ok (default_endpoint,
        Dict.set (Dict.set so "args" (.vDict args)) "endpoint" (.vStr default_endpoint)) := by
    simp [resolveEndpoint, Dict.setdefault, h1]
  have h2 : Dict.get (Dict.set (Dict.set so "args" (.vDict args)) "endpoint"
      (.vStr default_endpoint)) "splash_url" = none := by
    rw [Dict.get_set_ne _ _ _ _ (by decide), Dict.get_set_ne _ _ _ _ (by decide)]
    exact hsu
  have hrb : resolveBase cfg (Dict.set (Dict.set so "args" (.vDict args)) "endpoint"
      (.vStr default_endpoint)) = Except.ok cfg.splash_base_url := by
    simp [resolveBase, h2]
  have h3 : Dict.get (Dict.set (Dict.set so "args" (.vDict args)) "endpoint"
      (.vStr default_endpoint)) "meta" = none := by
    rw [Dict.get_set_ne _ _ _ _ (by decide), Dict.get_set_ne _ _ _ _ (by decide)]
    exact hov
  have hro : resolveMetaOverride (Dict.set (Dict.set so "args" (.vDict args)) "endpoint"
      (.vStr default_endpoint)) = Except.ok [] := by
    simp [resolveMetaOverride, h3]
  simp [finishRewrite, ht, hre, hrb, hro]

theorem sAppendAssoc (a b c : String) : a ++ b ++ c = a ++ (b ++ c) := by
  cases a with
  | mk la =>
      cases b with
      | mk lb =>
          cases c with
          | mk lc =>
              show String.append (String.append ⟨la⟩ ⟨lb⟩) ⟨lc⟩ =
                String.append ⟨la⟩ (String.append ⟨lb⟩ ⟨lc⟩)
              simp [String.append, List.append_assoc]

/-- The generated Lua script contains `host = "<host>"` verbatim. -/
theorem proxyScript_mentions_host (h p hl b : String) :
    ∃ s1 s2, proxyScript h p hl b = s1 ++ (("host = \"" ++ (h ++ "\"")) ++ s2) := by
  refine ⟨"\n        function main(splash)\n            splash:on_request(function(request)\n                request:set_proxy\x7b\n                    ",
    ",\n                    port = " ++
      (p ++
      (",\n                \x7d\n            end)\n\n            splash:set_custom_headers(\x7b " ++
      (hl ++
      (" \x7d)\n\n            assert(splash:go\x7bsplash.args.url, baseurl=" ++
      (b ++
      "\x7d)\n            return splash:html()\n        end\n        "))))), ?_⟩
  show ("\n        function main(splash)\n            splash:on_request(function(request)\n                request:set_proxy\x7b\n                    host = \"" : String) ++
      (h ++ (("\",\n                    port = " : String) ++ _)) = _
  rw [show ("\n        function main(splash)\n            splash:on_request(function(request)\n                request:set_proxy\x7b\n                    host = \"" : String) =
      "\n        function main(splash)\n            splash:on_request(function(request)\n                request:set_proxy\x7b\n                    " ++ "host = \"" from rfl,
    show ("\",\n                    port = " : String) = "\"" ++ ",\n                    port = " from rfl]
  simp only [sAppendAssoc]

/-- The generated Lua script contains `port = <port>` verbatim. -/
theorem proxyScript_mentions_port (h p hl b : String) :
    ∃ s1 s2, proxyScript h p hl b = s1 ++ (("port = " ++ p) ++ s2) := by
  refine ⟨"\n        function main(splash)\n            splash:on_request(function(request)\n                request:set_proxy\x7b\n                    host = \"" ++
    (h ++ ("\",\n                    " : String)),
    ",\n                \x7d\n            end)\n\n            splash:set_custom_headers(\x7b " ++
      (hl ++
      (" \x7d)\n\n            assert(splash:go\x7bsplash.args.url, baseurl=" ++
      (b ++
      "\x7d)\n            return splash:html()\n        end\n        "))), ?_⟩
  show ("\n        function main(splash)\n            splash:on_request(function(request)\n                request:set_proxy\x7b\n                    host = \"" : String) ++
      (h ++ (("\",\n                    port = " : String) ++ _)) = _
  rw [show ("\",\n                    port = " : String) =
      "\",\n                    " ++ "port = " from rfl]
  simp only [sAppendAssoc]

/-- Variant of `finishRewrite_spec` for an options dict that already carries
a (string) endpoint, as after the proxy rewrite forced `execute`. -/
theorem finishRewrite_spec_endpoint (cfg : Config) (so meta args mt : Dict) (e : String)
    (ht : applyTimeout meta args = Except.ok mt)
    (hend : Dict.get so "endpoint" = some (.vStr e))
    (hsu : Dict.get so "splash_url" = none)
    (hov : Dict.get so "meta" = none) :
    finishRewrite cfg so meta args =
      Except.ok ⟨.rewritten
        { url := urljoin cfg.splash_base_url e
          method := "POST"
          headers := rewrittenHeaders cfg
          body := jsonDumpVal (.vDict args)
          meta := Dict.set mt "_splash_processed"
            (.vDict (Dict.set so "args" (.vDict args))) },
        Dict.set mt "_splash_processed" (.vDict (Dict.set so "args" (.vDict args))),
        [requestCountKey e]⟩ := by
  have h1 : Dict.get (Dict.set so "args" (.vDict args)) "endpoint" = some (.vStr e) := by
    rw [Dict.get_set_ne _ _ _ _ (by decide)]; exact hend
  have hre : resolveEndpoint (Dict.set so "args" (.vDict args)) =
      Except.ok (e, Dict.set so "args" (.vDict args)) := by
    simp [resolveEndpoint, Dict.setdefault, h1]
  have h2 : Dict.get (Dict.set so "args" (.vDict args)) "splash_url" = none := by
    rw [Dict.get_set_ne _ _ _ _ (by decide)]; exact hsu
  have hrb : resolveBase cfg (Dict.set so "args" (.vDict args)) =
      Except.ok cfg.splash_base_url := by
    simp [resolveBase, h2]
  have h3 : Dict.get (Dict.set so "args" (.vDict args)) "meta" = none := by
    rw [Dict.get_set_ne _ _ _ _ (by decide)]; exact hov
  have hro : resolveMetaOverride (Dict.set so "args" (.vDict args)) = Except.ok [] := by
    simp [resolveMetaOverride, h3]
  simp [finishRewrite, ht, hre, hrb, hro]

theorem rewriteSplash_noargs_proxy (cfg : Config) (req : Request) (so : Dict) (pv : Val)
    (args2 meta2 so2 : Dict)
    (hargs : Dict.get so "args" = none)
    (hproxy : Dict.get req.meta "proxy" = some pv)
    (hpt : pv.truthy = true)
    (hsetup : setup_variables_for_proxy_usage [("url", .vStr req.url)]
        (set_download_slot cfg req (Dict.del req.meta "splash")
          ((Dict.get so "slot_policy").getD (.vStr cfg.slot_policy)))
        (Dict.set so "args" (.vDict [])) req.headers pv = Except.ok (args2, meta2, so2)) :
    rewriteSplash cfg req so = finishRewrite cfg so2 meta2 args2 := by
  have hsd : Dict.setdefault so "args" (.vDict []) =
      (.vDict [], Dict.set so "args" (.vDict [])) := by
    simp [Dict.setdefault, hargs]
  have hp : Dict.get (set_download_slot cfg req (Dict.del req.meta "splash")
      ((Dict.get so "slot_policy").getD (.vStr cfg.slot_policy))) "proxy" = some pv := by
    rw [get_set_download_slot_ne _ _ _ _ _ (by decide),
        Dict.get_del_ne _ _ _ (by decide), hproxy]
  simp [rewriteSplash, hsd, hp, hpt, Dict.hasKey, Dict.get, Dict.set, hsetup]

/-- Evaluation of `setup_variables_for_proxy_usage` for a string proxy URL
with well-formed host/port, headers with at least one value each, and no
`baseurl` in args. -/
theorem setup_spec (args meta so : Dict) (headers : List (String × List String))
    (purl host : String) (port : Nat) (es : List String)
    (hpp : parseHostPort purl = Except.ok (some host, some port))
    (hhs : headerLuaEntries headers = Except.ok es)
    (hbu : Dict.get args "baseurl" = none) :
    setup_variables_for_proxy_usage args meta so headers (.vStr purl) =
      Except.ok (Dict.set args "lua_source"
          (.vStr (proxyScript host (toString port) (String.intercalate ",\n" es) "nil")),
        Dict.del meta "proxy",
        Dict.set so "endpoint" (.vStr "execute")) := by
  simp [setup_variables_for_proxy_usage, hpp, headers_as_lua_list, hhs,
        baseurl_as_lua_str, hbu]

/-! ### Inversion lemmas for the success path -/

theorem setdefault_args_inv {so a so1 : Dict}
    (h : Dict.setdefault so "args" (.vDict []) = (.vDict a, so1)) :
    Dict.get so "args" = some (.vDict a) ∨ (Dict.get so "args" = none ∧ a = []) := by
  unfold Dict.setdefault at h
  cases hg : Dict.get so "args" with
  | some w =>
      rw [hg] at h
      injection h with h1 h2
      exact Or.inl (by rw [h1])
  | none =>
      rw [hg] at h
      injection h with h1 h2
      injection h1 with h3
      exact Or.inr ⟨rfl, h3.symm⟩

theorem setdefault_snd_eq {so a so1 : Dict}
    (h : Dict.setdefault so "args" (.vDict []) = (.vDict a, so1)) (k : String)
    (hk : k ≠ "args") : Dict.get so1 k = Dict.get so k := by
  have h2 : (Dict.setdefault so "args" (.vDict [])).2 = so1 := by rw [h]
  rw [← h2, Dict.get_setdefault_snd_ne _ _ _ _ (Ne.symm hk)]

theorem resolveEndpoint_inv {s : Dict} {e : String} {s2 : Dict}
    (h : resolveEndpoint s = Except.ok (e, s2)) (k : String) (hk : k ≠ "endpoint") :
    Dict.get s2 k = Dict.get s k := by
  unfold resolveEndpoint at h
  split at h
  next e2 s3 heq =>
      have hinj := Except.ok.inj h
      injection hinj with h1 h2
      have h3 : (Dict.setdefault s "endpoint" (.vStr default_endpoint)).2 = s3 := by rw [heq]
      rw [← h2, ← h3, Dict.get_setdefault_snd_ne _ _ _ _ (Ne.symm hk)]
  next => exact absurd h (by simp)

theorem resolveMetaOverride_inv {s ov : Dict}
    (h : resolveMetaOverride s = Except.ok ov) :
    (Dict.get s "meta" = none ∧ ov = []) ∨ Dict.get s "meta" = some (.vDict ov) := by
  unfold resolveMetaOverride at h
  split at h
  · exact Or.inl ⟨by assumption, (Except.ok.inj h).symm⟩
  next d heq => exact Or.inr ((Except.ok.inj h) ▸ heq)
  next => exact absurd h (by simp)

theorem applyTimeout_preserves {meta args mt : Dict}
    (h : applyTimeout meta args = Except.ok mt) (k : String)
    (hk : k ≠ "download_timeout") : Dict.get mt k = Dict.get meta k := by
  unfold applyTimeout at h
  split at h
  · rw [← Except.ok.inj h]
  · obtain ⟨tcur, h1, h⟩ := exceptBindInv h
    obtain ⟨t0, h2, h⟩ := exceptBindInv h
    split at h
    · rw [← Except.ok.inj h, Dict.get_set_ne _ _ _ _ (Ne.symm hk)]
    · rw [← Except.ok.inj h]

theorem setup_inv {args meta so : Dict} {headers : List (String × List String)}
    {pv : Val} {args2 meta2 so2 : Dict}
    (h : setup_variables_for_proxy_usage args meta so headers pv =
      Except.ok (args2, meta2, so2)) :
    ∃ s : String, args2 = Dict.set args "lua_source" (.vStr s) ∧
      meta2 = Dict.del meta "proxy" ∧
      so2 = Dict.set so "endpoint" (.vStr "execute") := by
  unfold setup_variables_for_proxy_usage at h
  cases pv with
  | vStr proxyUrl =>
      obtain ⟨hp, h2, h⟩ := exceptBindInv h
      obtain ⟨hl, h3, h⟩ := exceptBindInv h
      have hinj := Except.ok.inj h
      injection hinj with ha hrest
      injection hrest with hb hc
      exact ⟨_, ha.symm, hb.symm, hc.symm⟩
  | vNone => exact absurd h (by simp)
  | vBool b => exact absurd h (by simp)
  | vNum q => exact absurd h (by simp)
  | vDict d => exact absurd h (by simp)

theorem finishRewrite_inv {cfg : Config} {so meta args : Dict} {out : ProcOut}
    (h : finishRewrite cfg so meta args = Except.ok out) :
    ∃ mt e so2 base ov,
      applyTimeout meta args = Except.ok mt ∧
      resolveEndpoint (Dict.set so "args" (.vDict args)) = Except.ok (e, so2) ∧
      resolveBase cfg so2 = Except.ok base ∧
      resolveMetaOverride so2 = Except.ok ov ∧
      out = ⟨.rewritten
        { url := urljoin base e
          method := "POST"
          headers := rewrittenHeaders cfg
          body := jsonDumpVal (.vDict args)
          meta := Dict.update (Dict.set mt "_splash_processed" (.vDict so2)) ov },
        Dict.set mt "_splash_processed" (.vDict so2),
        [requestCountKey e]⟩ := by
  simp only [finishRewrite] at h
  obtain ⟨mt, h1, h⟩ := exceptBindInv h
  obtain ⟨eps, h2, h⟩ := exceptBindInv h
  obtain ⟨base, h3, h⟩ := exceptBindInv h
  obtain ⟨ov, h4, h⟩ := exceptBindInv h
  exact ⟨mt, eps.1, eps.2, base, ov, h1, h2, h3, h4, (Except.ok.inj h).symm⟩

/-- Inversion of a successful `process_request` that produced a rewritten
request: the attachment was a truthy dict on a GET request. -/
theorem process_request_ok_rewritten_inv {cfg : Config} {req : Request} {out : ProcOut}
    {r : Request}
    (h : process_request cfg req = Except.ok out)
    (hr : out.result = .rewritten r) :
    ∃ so, Dict.get req.meta "splash" = some (.vDict so) ∧ req.method = "GET" ∧
      so.isEmpty = false ∧ rewriteSplash cfg req so = Except.ok out := by
  unfold process_request at h
  split at h
  · rw [← Except.ok.inj h] at hr
    exact absurd hr (by simp)
  next sval heq =>
    split at h
    · rw [← Except.ok.inj h] at hr
      exact absurd hr (by simp)
    · split at h
      · rw [← Except.ok.inj h] at hr
        exact absurd hr (by simp)
      next h2 h3 =>
        split at h
        next so =>
          refine ⟨so, heq, by simpa using h3, ?_, h⟩
          cases so with
          | nil => exact absurd rfl h2
          | cons kv rest => rfl
        all_goals exact absurd h (by simp)

/-- Inversion of `rewriteSplash`: a successful run always ends in a
`finishRewrite` call, whose three dict arguments are exactly the directly
computed ones, transformed by the proxy step (when a truthy proxy
directive was present) and untouched otherwise. -/
theorem rewriteSplash_inv {cfg : Config} {req : Request} {so : Dict} {out : ProcOut}
    (h : rewriteSplash cfg req so = Except.ok out) :
    ∃ a so1 soG metaG argsG,
      Dict.setdefault so "args" (.vDict []) = (.vDict a, so1) ∧
      finishRewrite cfg soG metaG argsG = Except.ok out ∧
      ((∃ pv s, Dict.get (set_download_slot cfg req (Dict.del req.meta "splash")
            ((Dict.get so "slot_policy").getD (.vStr cfg.slot_policy))) "proxy" = some pv ∧
          pv.truthy = true ∧
          argsG = Dict.set (if Dict.hasKey a "url" = true then a
            else Dict.set a "url" (.vStr req.url)) "lua_source" (.vStr s) ∧
          metaG = Dict.del (set_download_slot cfg req (Dict.del req.meta "splash")
            ((Dict.get so "slot_policy").getD (.vStr cfg.slot_policy))) "proxy" ∧
          soG = Dict.set so1 "endpoint" (.vStr "execute")) ∨
       ((Dict.get (set_download_slot cfg req (Dict.del req.meta "splash")
            ((Dict.get so "slot_policy").getD (.vStr cfg.slot_policy))) "proxy" = none ∨
          ∃ pv, Dict.get (set_download_slot cfg req (Dict.del req.meta "splash")
            ((Dict.get so "slot_policy").getD (.vStr cfg.slot_policy))) "proxy" = some pv ∧
            pv.truthy = false) ∧
         argsG = (if Dict.hasKey a "url" = true then a
           else Dict.set a "url" (.vStr req.url)) ∧
         metaG = set_download_slot cfg req (Dict.del req.meta "splash")
           ((Dict.get so "slot_policy").getD (.vStr cfg.slot_policy)) ∧
         soG = so1)) := by
  simp only [rewriteSplash] at h
  split at h
  next a so1 heq =>
    split at h
    next pv hpv =>
      split at h
      next htr =>
        split at h
        next args2 meta3 so3 hsetup =>
          obtain ⟨s, ha2, hm3, hs3⟩ := setup_inv hsetup
          exact ⟨a, so1, so3, meta3, args2, heq, h,
            Or.inl ⟨pv, s, hpv, htr, ha2, hm3, hs3⟩⟩
        next => exact absurd h (by simp)
      next htr =>
        have hf : pv.truthy = false := by
          revert htr
          cases pv.truthy <;> simp
        exact ⟨a, so1, so1, _, _, heq, h,
          Or.inr ⟨Or.inr ⟨pv, hpv, hf⟩, rfl, rfl, rfl⟩⟩
    next hpn => exact ⟨a, so1, so1, _, _, heq, h, Or.inr ⟨Or.inl hpn, rfl, rfl, rfl⟩⟩
  next h2 => exact absurd h (by simp)

/-- Pointwise consequence of `rewriteSplash_inv`: the dicts handed to
`finishRewrite` agree with the directly computed ones on all keys except
`endpoint` / `lua_source` / `proxy` (the keys the proxy step touches). -/
theorem rewriteSplash_inv_pointwise {cfg : Config} {req : Request} {so : Dict}
    {out : ProcOut}
    (h : rewriteSplash cfg req so = Except.ok out) :
    ∃ a so1 soG metaG argsG,
      Dict.setdefault so "args" (.vDict []) = (.vDict a, so1) ∧
      finishRewrite cfg soG metaG argsG = Except.ok out ∧
      (∀ k, k ≠ "endpoint" → Dict.get soG k = Dict.get so1 k) ∧
      (∀ k, k ≠ "lua_source" → Dict.get argsG k =
        Dict.get (if Dict.hasKey a "url" = true then a
                  else Dict.set a "url" (.vStr req.url)) k) ∧
      (∀ k, k ≠ "proxy" → Dict.get metaG k =
        Dict.get (set_download_slot cfg req (Dict.del req.meta "splash")
          ((Dict.get so "slot_policy").getD (.vStr cfg.slot_policy))) k) := by
  obtain ⟨a, so1, soG, metaG, argsG, hsd, hfin, hcase⟩ := rewriteSplash_inv h
  refine ⟨a, so1, soG, metaG, argsG, hsd, hfin, ?_, ?_, ?_⟩
  · intro k hk
    rcases hcase with ⟨pv, s, hpv, hpt, ha, hm2, hs⟩ | ⟨hnp, ha, hm2, hs⟩
    · rw [hs, Dict.get_set_ne _ _ _ _ (Ne.symm hk)]
    · rw [hs]
  · intro k hk
    rcases hcase with ⟨pv, s, hpv, hpt, ha, hm2, hs⟩ | ⟨hnp, ha, hm2, hs⟩
    · rw [ha, Dict.get_set_ne _ _ _ _ (Ne.symm hk)]
    · rw [ha]
  · intro k hk
    rcases hcase with ⟨pv, s, hpv, hpt, ha, hm2, hs⟩ | ⟨hnp, ha, hm2, hs⟩
    · rw [hm2, Dict.get_del_ne _ _ _ (Ne.symm hk)]
    · rw [hm2]

/-- Value-level inversion of `resolveBase`: the base is the `splash_url`
override when present, the configured base URL otherwise. -/
theorem resolveBase_inv {cfg : Config} {s : Dict} {base : String}
    (h : resolveBase cfg s = Except.ok base) :
    (Dict.get s "splash_url" = none ∧ base = cfg.splash_base_url) ∨
    Dict.get s "splash_url" = some (.vStr base) := by
  unfold resolveBase at h
  split at h
  next b heq =>
    have hb : b = base := Except.ok.inj h
    subst hb
    cases hg : Dict.get s "splash_url" with
    | none =>
        rw [hg, Option.getD_none] at heq
        injection heq with h2
        exact Or.inl ⟨rfl, h2.symm⟩
    | some v =>
        rw [hg, Option.getD_some] at heq
        subst heq
        exact Or.inr rfl
  next => exact absurd h (by simp)

/-- Value-level inversion of `resolveEndpoint`: the resolved endpoint is the
options' `endpoint` entry when present, `render.json` otherwise. -/
theorem resolveEndpoint_val_inv {s : Dict} {e : String} {s2 : Dict}
    (h : resolveEndpoint s = Except.ok (e, s2)) :
    Dict.get s "endpoint" = some (.vStr e) ∨
    (Dict.get s "endpoint" = none ∧ e = default_endpoint) := by
  unfold resolveEndpoint at h
  split at h
  next e2 s3 heq =>
    have hinj := Except.ok.inj h
    injection hinj with h1 h2
    subst h1
    unfold Dict.setdefault at heq
    cases hg : Dict.get s "endpoint" with
    | some w =>
        rw [hg] at heq
        injection heq with hw hs
        exact Or.inl (by rw [hw])
    | none =>
        rw [hg] at heq
        injection heq with hw hs
        injection hw with hw2
        exact Or.inr ⟨rfl, hw2.symm⟩
  next => exact absurd h (by simp)

/-! ### Claims -/

/-- C6: for every request with a truthy rendering-options attachment whose
method is not GET, `process_request` emits the warning and returns the
request unmodified (PassThrough): the original meta is unchanged and no
stats counters are incremented. -/
theorem claim_C6_nonget_warn_passthrough (cfg : Config) (req : Request) (sval : Val)
    (hsp : Dict.get req.meta "splash" = some sval) (ht : sval.truthy = true)
    (hm : req.method ≠ "GET") :
    process_request cfg req = Except.ok ⟨.warnPassThrough, req.meta, []⟩ := by
  simp [process_request, hsp, ht, hm]

theorem claim_C6_witness :
    Dict.get [("splash", Val.vDict [("a", Val.vBool true)])] "splash" =
      some (Val.vDict [("a", Val.vBool true)]) ∧
    (Val.vDict [("a", Val.vBool true)]).truthy = true ∧
    ("POST" : String) ≠ "GET" ∧
    process_request ⟨"http://127.0.0.1:8050", "per_domain", none, fun _ => "s"⟩
      ⟨"http://example.com/", "POST", [], "", [("splash", Val.vDict [("a", Val.vBool true)])]⟩ =
      Except.ok ⟨.warnPassThrough, [("splash", Val.vDict [("a", Val.vBool true)])], []⟩ :=
  ⟨rfl, rfl, by decide,
    claim_C6_nonget_warn_passthrough _ _ _ rfl rfl (by decide)⟩

/-- C8: when the rendering-options attachment is present but is the empty
(falsy) mapping, `process_request` returns PassThrough with no side
effects: no warning, the meta unchanged, no counter incremented. -/
theorem claim_C8_empty_attachment_passthrough (cfg : Config) (req : Request)
    (hsp : Dict.get req.meta "splash" = some (Val.vDict [])) :
    process_request cfg req = Except.ok ⟨.passThrough, req.meta, []⟩ := by
  simp [process_request, hsp, Val.truthy]

theorem claim_C8_witness :
    Dict.get [("splash", Val.vDict []), ("download_timeout", Val.vNum 7)] "splash" =
      some (Val.vDict []) ∧
    process_request ⟨"http://127.0.0.1:8050", "per_domain", none, fun _ => "s"⟩
      ⟨"http://example.com/", "GET", [], "",
       [("splash", Val.vDict []), ("download_timeout", Val.vNum 7)]⟩ =
      Except.ok ⟨.passThrough,
        [("splash", Val.vDict []), ("download_timeout", Val.vNum 7)], []⟩ :=
  ⟨rfl, claim_C8_empty_attachment_passthrough _ _ rfl⟩

/-- C10: in the synthesized proxy-forwarding script each header contributes
exactly its first value: truncating every header value list to its first
element does not change `headers_as_lua_list`, and a header with values
`v :: vs` contributes the entry built from `v` alone. -/
theorem claim_C10_first_header_value_only (hs : List (String × List String)) :
    headers_as_lua_list (hs.map fun kv => (kv.1, kv.2.take 1)) = headers_as_lua_list hs ∧
    ∀ (k v : String) (vs : List String),
      headerLuaEntry k (v :: vs) = Except.ok ("[\"" ++ k ++ "\"] = \"" ++ v ++ "\"") := by
  constructor
  · unfold headers_as_lua_list
    suffices h : headerLuaEntries (hs.map fun kv => (kv.1, kv.2.take 1)) = headerLuaEntries hs by
      rw [h]
    induction hs with
    | nil => rfl
    | cons kv rest ih =>
        obtain ⟨k, vs⟩ := kv
        cases vs with
        | nil => simp [headerLuaEntries, headerLuaEntry]
        | cons v vs2 => simp [headerLuaEntries, headerLuaEntry, ih]
  · intro k v vs
    rfl

/-- C4: construction from configuration fails with a `NotConfigured` error
exactly for slot-policy names outside the three known policies, and
succeeds for every known policy name; the check happens in `from_crawler`,
before any request is processed. -/
theorem claim_C4_policy_validated_at_startup (s : Settings) (gsk : Request → String) :
    ((s.SPLASH_SLOT_POLICY.getD default_policy) ∉ SlotPolicy.known →
      from_crawler s gsk = Except.error
        ("NotConfigured: Incorrect slot policy: \x27" ++
          (s.SPLASH_SLOT_POLICY.getD default_policy) ++ "\x27")) ∧
    ((s.SPLASH_SLOT_POLICY.getD default_policy) ∈ SlotPolicy.known →
      ∃ cfg, from_crawler s gsk = Except.ok cfg ∧
        cfg.slot_policy = s.SPLASH_SLOT_POLICY.getD default_policy) := by
  constructor
  · intro h
    simp [from_crawler, h]
  · intro h
    refine ⟨{ splash_base_url := s.SPLASH_URL.getD default_splash_url
              slot_policy := s.SPLASH_SLOT_POLICY.getD default_policy
              splash_auth := mkSplashAuth s
              getSlotKey := gsk }, ?_, rfl⟩
    simp [from_crawler, h]

/-- C3: when `args` carries an explicit render timeout `t`, the rewritten
request's download-timeout is raised to `t + 5` exactly when the current
value (the sentinel `1e6` when absent) is smaller, and is never lowered:
otherwise the original download-timeout entry is kept unchanged. -/
theorem claim_C3_timeout_reconciliation (cfg : Config) (req : Request) (so a : Dict)
    (t cur : ℚ)
    (hm : req.method = "GET")
    (hsp : Dict.get req.meta "splash" = some (.vDict so))
    (hargs : Dict.get so "args" = some (.vDict a))
    (htime : Dict.get a "timeout" = some (.vNum t))
    (hproxy : Dict.get req.meta "proxy" = none)
    (hend : Dict.get so "endpoint" = none)
    (hsu : Dict.get so "splash_url" = none)
    (hov : Dict.get so "meta" = none)
    (hcur : Dict.get req.meta "download_timeout" = some (.vNum cur) ∨
            (Dict.get req.meta "download_timeout" = none ∧ cur = 1000000)) :
    ∃ out r, process_request cfg req = Except.ok out ∧
      out.result = .rewritten r ∧
      Dict.get out.reqMeta "download_timeout" =
        (if cur < t + 5 then some (.vNum (t + 5)) else Dict.get req.meta "download_timeout") ∧
      Dict.get r.meta "download_timeout" =
        (if cur < t + 5 then some (.vNum (t + 5)) else Dict.get req.meta "download_timeout") := by
  have hne : so.isEmpty = false := Dict.ne_nil_of_get_some hargs
  have hmain := process_request_eq_rewrite cfg req so hm hsp hne
  rw [rewriteSplash_noproxy cfg req so a hargs hproxy] at hmain
  set meta2 := set_download_slot cfg req (Dict.del req.meta "splash")
    ((Dict.get so "slot_policy").getD (.vStr cfg.slot_policy)) with hmeta2
  set args1 := (if Dict.hasKey a "url" = true then a else Dict.set a "url" (.vStr req.url))
    with hargs1
  have hdl : Dict.get meta2 "download_timeout" = Dict.get req.meta "download_timeout" := by
    rw [hmeta2, get_set_download_slot_ne _ _ _ _ _ (by decide),
        Dict.get_del_ne _ _ _ (by decide)]
  have htime1 : Dict.get args1 "timeout" = some (.vNum t) := by
    rw [hargs1]
    by_cases hk : Dict.hasKey a "url" = true
    · simp [hk, htime]
    · rw [if_neg hk, Dict.get_set_ne _ _ _ _ (by decide)]
      exact htime
  have hcur2 : currentDownloadTimeout meta2 = Except.ok cur := by
    rcases hcur with hc | ⟨hc, hceq⟩
    · simp [currentDownloadTimeout, hdl, hc]
    · simp [currentDownloadTimeout, hdl, hc, hceq]
  have hat : applyTimeout meta2 args1 =
      Except.ok (if cur < t + 5 then Dict.set meta2 "download_timeout" (.vNum (t + 5))
                 else meta2) := by
    by_cases hlt : cur < t + 5
    · simp [applyTimeout, htime1, hcur2, floatOfVal, splash_extra_timeout, hlt]
    · simp [applyTimeout, htime1, hcur2, floatOfVal, splash_extra_timeout, hlt]
  rw [finishRewrite_spec cfg so meta2 args1 _ hat hend hsu hov] at hmain
  refine ⟨_, _, hmain, rfl, ?_, ?_⟩ <;>
  · rw [Dict.get_set_ne _ _ _ _ (by decide)]
    by_cases hlt : cur < t + 5
    · simp [hlt, Dict.get_set_self]
    · simp [hlt, hdl]

theorem claim_C3_witness :
    (("GET" : String) = "GET") ∧
    Dict.get [("splash", Val.vDict [("args", Val.vDict [("timeout", Val.vNum 10)])]),
              ("download_timeout", Val.vNum 5)] "splash" =
      some (Val.vDict [("args", Val.vDict [("timeout", Val.vNum 10)])]) ∧
    (∃ out r,
      process_request ⟨"http://127.0.0.1:8050", "scrapy_default", none, fun _ => "s"⟩
        ⟨"http://example.com/", "GET", [], "",
         [("splash", Val.vDict [("args", Val.vDict [("timeout", Val.vNum 10)])]),
          ("download_timeout", Val.vNum 5)]⟩ = Except.ok out ∧
      out.result = .rewritten r ∧
      Dict.get out.reqMeta "download_timeout" =
        (if (5 : ℚ) < 10 + 5 then some (.vNum ((10 : ℚ) + 5))
         else Dict.get [("splash", Val.vDict [("args", Val.vDict [("timeout", Val.vNum 10)])]),
                        ("download_timeout", Val.vNum 5)] "download_timeout") ∧
      Dict.get r.meta "download_timeout" =
        (if (5 : ℚ) < 10 + 5 then some (.vNum ((10 : ℚ) + 5))
         else Dict.get [("splash", Val.vDict [("args", Val.vDict [("timeout", Val.vNum 10)])]),
                        ("download_timeout", Val.vNum 5)] "download_timeout")) :=
  ⟨rfl, rfl,
    claim_C3_timeout_reconciliation _ _ _ _ 10 5 rfl rfl rfl rfl rfl rfl rfl rfl
      (Or.inl rfl)⟩

/-- C2 (counterexample): the destination URL is computed with `urljoin`,
which is not plain concatenation: with a per-request base URL override
`http://127.0.0.1:8050/sub/dir` and the default endpoint the rewritten URL
is `http://127.0.0.1:8050/sub/render.json`, not
`<base_url>/<endpoint> = http://127.0.0.1:8050/sub/dir/render.json`. -/
theorem claim_C2_counterexample :
    Except.map
      (fun out => match ProcOut.result out with
        | MwResult.rewritten r => some (Request.url r)
        | _ => none)
      (process_request ⟨"http://127.0.0.1:8050", "scrapy_default", none, fun _ => "s"⟩
        ⟨"http://example.com/page", "GET", [], "",
         [("splash", Val.vDict [("splash_url", Val.vStr "http://127.0.0.1:8050/sub/dir")])]⟩) =
      Except.ok (some "http://127.0.0.1:8050/sub/render.json") ∧
    ("http://127.0.0.1:8050/sub/render.json" : String) ≠
      "http://127.0.0.1:8050/sub/dir" ++ "/" ++ "render.json" :=
  ⟨rfl, by decide⟩

/-- C2 (amended): for every GET request with a rendering-options
attachment that `process_request` rewrites, the destination URL of the
rewritten request is `urljoin(resolved base, resolved endpoint)`, where
the base resolves to the `splash_url` override when present and to the
configured base URL otherwise, and the endpoint resolves to `execute`
under a truthy proxy directive and to the options\x27 `endpoint` entry or
the `render.json` default otherwise; in particular with the default base
URL (no path component), options `\x7bargs: \x7b\x7d\x7d` and no proxy, the URL is
`http://127.0.0.1:8050/render.json` and the body is the JSON object whose
single `url` field is the original request URL. -/
theorem claim_C2_url_from_urljoin (cfg : Config) (req : Request) (out : ProcOut)
    (r : Request)
    (h : process_request cfg req = Except.ok out)
    (hr : out.result = .rewritten r) :
    ∃ so base e, Dict.get req.meta "splash" = some (.vDict so) ∧
      req.method = "GET" ∧
      ((Dict.get so "splash_url" = none ∧ base = cfg.splash_base_url) ∨
        Dict.get so "splash_url" = some (.vStr base)) ∧
      ((∃ pv, Dict.get req.meta "proxy" = some pv ∧ pv.truthy = true ∧ e = "execute") ∨
        ((Dict.get req.meta "proxy" = none ∨
          ∃ pv, Dict.get req.meta "proxy" = some pv ∧ pv.truthy = false) ∧
         (Dict.get so "endpoint" = some (.vStr e) ∨
          (Dict.get so "endpoint" = none ∧ e = default_endpoint)))) ∧
      r.url = urljoin base e ∧
      r.method = "POST" ∧
      out.stats = [requestCountKey e] ∧
      ((cfg.splash_base_url = "http://127.0.0.1:8050" ∧ so = [("args", .vDict [])] ∧
        Dict.get req.meta "proxy" = none) →
        r.url = "http://127.0.0.1:8050/render.json" ∧
        r.body = jsonDumpVal (.vDict [("url", .vStr req.url)])) := by
  obtain ⟨so, hsp, hm, hne, hrw⟩ := process_request_ok_rewritten_inv h hr
  obtain ⟨a, so1, soG, metaG, argsG, hsd, hfin, hcase⟩ := rewriteSplash_inv hrw
  obtain ⟨mt, e, so2, base, ov, hmt, hre, hrb, hro, hout⟩ := finishRewrite_inv hfin
  rw [hout] at hr
  injection hr with hreq
  subst hreq
  have hproxy_eq : Dict.get (set_download_slot cfg req (Dict.del req.meta "splash")
      ((Dict.get so "slot_policy").getD (.vStr cfg.slot_policy))) "proxy" =
      Dict.get req.meta "proxy" := by
    rw [get_set_download_slot_ne _ _ _ _ _ (by decide), Dict.get_del_ne _ _ _ (by decide)]
  have hsu2 : Dict.get so2 "splash_url" = Dict.get so "splash_url" := by
    rw [resolveEndpoint_inv hre "splash_url" (by decide),
        Dict.get_set_ne _ _ _ _ (by decide)]
    rcases hcase with ⟨pv, s, hpv, hpt, ha, hm2, hs⟩ | ⟨hnp, ha, hm2, hs⟩
    · rw [hs, Dict.get_set_ne _ _ _ _ (by decide), setdefault_snd_eq hsd _ (by decide)]
    · rw [hs, setdefault_snd_eq hsd _ (by decide)]
  have hbase := resolveBase_inv hrb
  rw [hsu2] at hbase
  have hech := resolveEndpoint_val_inv hre
  rw [Dict.get_set_ne _ _ _ _ (by decide)] at hech
  have hedisj : (∃ pv, Dict.get req.meta "proxy" = some pv ∧ pv.truthy = true ∧
      e = "execute") ∨
      ((Dict.get req.meta "proxy" = none ∨
        ∃ pv, Dict.get req.meta "proxy" = some pv ∧ pv.truthy = false) ∧
       (Dict.get so "endpoint" = some (.vStr e) ∨
        (Dict.get so "endpoint" = none ∧ e = default_endpoint))) := by
    rcases hcase with ⟨pv, s, hpv, hpt, ha, hm2, hs⟩ | ⟨hnp, ha, hm2, hs⟩
    · left
      refine ⟨pv, hproxy_eq ▸ hpv, hpt, ?_⟩
      rw [hs, Dict.get_set_self] at hech
      rcases hech with hx | ⟨hx, _⟩
      · injection hx with hx2
        injection hx2 with hx3
        exact hx3.symm
      · simp at hx
    · right
      constructor
      · rcases hnp with hnone | ⟨pv, hpv, hf⟩
        · exact Or.inl (hproxy_eq ▸ hnone)
        · exact Or.inr ⟨pv, hproxy_eq ▸ hpv, hf⟩
      · rw [hs, setdefault_snd_eq hsd _ (by decide)] at hech
        exact hech
  refine ⟨so, base, e, hsp, hm, hbase, hedisj, rfl, rfl, by rw [hout], ?_⟩
  rintro ⟨hb, hsoeq, hpn⟩
  subst hsoeq
  have hsd2 := hsd
  rw [show Dict.setdefault [("args", Val.vDict [])] "args" (.vDict []) =
      (Val.vDict ([] : Dict), ([("args", Val.vDict [])] : Dict)) from rfl] at hsd2
  injection hsd2 with hva hso1
  injection hva with ha0
  subst ha0
  rcases hcase with ⟨pv, s, hpv, hpt, ha, hm2, hs⟩ | ⟨hnp, ha, hm2, hs⟩
  · rw [hproxy_eq, hpn] at hpv
    exact absurd hpv (by simp)
  · have hargsG : argsG = [("url", Val.vStr req.url)] := ha.trans rfl
    have he : e = default_endpoint := by
      rcases hedisj with ⟨pv, hpv, _, _⟩ | ⟨_, hend⟩
      · rw [hpn] at hpv
        exact absurd hpv (by simp)
      · rcases hend with hx | ⟨_, hx⟩
        · exact absurd hx (by simp [Dict.get])
        · exact hx
    have hbv : base = "http://127.0.0.1:8050" := by
      rcases hbase with ⟨_, hx⟩ | hx
      · rw [hx, hb]
      · exact absurd hx (by simp [Dict.get])
    constructor
    · show urljoin base e = _
      rw [hbv, he]
      exact rfl
    · show jsonDumpVal (.vDict argsG) = _
      rw [hargsG]

theorem claim_C2_witness :
    process_request ⟨"http://127.0.0.1:8050", "scrapy_default", none, fun _ => "s"⟩
      ⟨"http://example.com/", "GET", [], "",
       [("splash", Val.vDict [("args", Val.vDict [])])]⟩ =
      Except.ok ⟨.rewritten
        ⟨"http://127.0.0.1:8050/render.json", "POST", [("Content-Type", ["application/json"])],
         "\x7b\"url\": \"http://example.com/\"\x7d",
         [("_splash_processed", Val.vDict
            [("args", Val.vDict [("url", Val.vStr "http://example.com/")]),
             ("endpoint", Val.vStr "render.json")])]⟩,
        [("_splash_processed", Val.vDict
           [("args", Val.vDict [("url", Val.vStr "http://example.com/")]),
            ("endpoint", Val.vStr "render.json")])],
        ["splash/render.json/request_count"]⟩ ∧
    ProcOut.result ⟨.rewritten
        ⟨"http://127.0.0.1:8050/render.json", "POST", [("Content-Type", ["application/json"])],
         "\x7b\"url\": \"http://example.com/\"\x7d",
         [("_splash_processed", Val.vDict
            [("args", Val.vDict [("url", Val.vStr "http://example.com/")]),
             ("endpoint", Val.vStr "render.json")])]⟩,
        [("_splash_processed", Val.vDict
           [("args", Val.vDict [("url", Val.vStr "http://example.com/")]),
            ("endpoint", Val.vStr "render.json")])],
        ["splash/render.json/request_count"]⟩ = .rewritten
        ⟨"http://127.0.0.1:8050/render.json", "POST", [("Content-Type", ["application/json"])],
         "\x7b\"url\": \"http://example.com/\"\x7d",
         [("_splash_processed", Val.vDict
            [("args", Val.vDict [("url", Val.vStr "http://example.com/")]),
             ("endpoint", Val.vStr "render.json")])]⟩ ∧
    (∃ so base e,
      Dict.get [("splash", Val.vDict [("args", Val.vDict [])])] "splash" =
        some (.vDict so) ∧
      ("GET" : String) = "GET" ∧
      ((Dict.get so "splash_url" = none ∧ base = "http://127.0.0.1:8050") ∨
        Dict.get so "splash_url" = some (.vStr base)) ∧
      ((∃ pv, Dict.get [("splash", Val.vDict [("args", Val.vDict [])])] "proxy" =
          some pv ∧ pv.truthy = true ∧ e = "execute") ∨
        ((Dict.get [("splash", Val.vDict [("args", Val.vDict [])])] "proxy" = none ∨
          ∃ pv, Dict.get [("splash", Val.vDict [("args", Val.vDict [])])] "proxy" =
            some pv ∧ pv.truthy = false) ∧
         (Dict.get so "endpoint" = some (.vStr e) ∨
          (Dict.get so "endpoint" = none ∧ e = default_endpoint)))) ∧
      ("http://127.0.0.1:8050/render.json" : String) = urljoin base e ∧
      ("POST" : String) = "POST" ∧
      (["splash/render.json/request_count"] : List String) = [requestCountKey e] ∧
      ((("http://127.0.0.1:8050" : String) = "http://127.0.0.1:8050" ∧
        so = [("args", Val.vDict [])] ∧
        Dict.get [("splash", Val.vDict [("args", Val.vDict [])])] "proxy" = none) →
        ("http://127.0.0.1:8050/render.json" : String) =
          "http://127.0.0.1:8050/render.json" ∧
        ("\x7b\"url\": \"http://example.com/\"\x7d" : String) =
          jsonDumpVal (.vDict [("url", .vStr "http://example.com/")]))) := by
  refine ⟨rfl, rfl, ?_⟩
  exact claim_C2_url_from_urljoin
    ⟨"http://127.0.0.1:8050", "scrapy_default", none, fun _ => "s"⟩
    ⟨"http://example.com/", "GET", [], "",
     [("splash", Val.vDict [("args", Val.vDict [])])]⟩
    ⟨.rewritten
        ⟨"http://127.0.0.1:8050/render.json", "POST", [("Content-Type", ["application/json"])],
         "\x7b\"url\": \"http://example.com/\"\x7d",
         [("_splash_processed", Val.vDict
            [("args", Val.vDict [("url", Val.vStr "http://example.com/")]),
             ("endpoint", Val.vStr "render.json")])]⟩,
        [("_splash_processed", Val.vDict
           [("args", Val.vDict [("url", Val.vStr "http://example.com/")]),
            ("endpoint", Val.vStr "render.json")])],
        ["splash/render.json/request_count"]⟩
    ⟨"http://127.0.0.1:8050/render.json", "POST", [("Content-Type", ["application/json"])],
     "\x7b\"url\": \"http://example.com/\"\x7d",
     [("_splash_processed", Val.vDict
        [("args", Val.vDict [("url", Val.vStr "http://example.com/")]),
         ("endpoint", Val.vStr "render.json")])]⟩
    rfl rfl

/-- C5: a GET request with a rendering-options attachment and a truthy
string proxy directive is rewritten so that the options payload carries a
generated Lua script mentioning the proxy host and port verbatim, the
original request's meta no longer contains the proxy directive, and the
resolved endpoint is `execute`. -/
theorem claim_C5_proxy_rewrite (cfg : Config) (req : Request) (so : Dict)
    (purl host : String) (port : Nat) (es : List String)
    (hm : req.method = "GET")
    (hsp : Dict.get req.meta "splash" = some (.vDict so))
    (hne : so.isEmpty = false)
    (hargs : Dict.get so "args" = none)
    (hproxy : Dict.get req.meta "proxy" = some (.vStr purl))
    (hpt : purl ≠ "")
    (hpp : parseHostPort purl = Except.ok (some host, some port))
    (hhs : headerLuaEntries req.headers = Except.ok es)
    (hsu : Dict.get so "splash_url" = none)
    (hov : Dict.get so "meta" = none) :
    ∃ out r soF aF s, process_request cfg req = Except.ok out ∧
      out.result = .rewritten r ∧
      Dict.get out.reqMeta "proxy" = none ∧
      Dict.get out.reqMeta "_splash_processed" = some (.vDict soF) ∧
      Dict.get soF "endpoint" = some (.vStr "execute") ∧
      Dict.get soF "args" = some (.vDict aF) ∧
      Dict.get aF "lua_source" = some (.vStr s) ∧
      (∃ s1 s2, s = s1 ++ (("host = \"" ++ (host ++ "\"")) ++ s2)) ∧
      (∃ s3 s4, s = s3 ++ (("port = " ++ toString port) ++ s4)) ∧
      out.stats = [requestCountKey "execute"] ∧
      r.meta = out.reqMeta := by
  have htruthy : (Val.vStr purl).truthy = true := by simp [Val.truthy, hpt]
  have hsetup := setup_spec [("url", .vStr req.url)]
    (set_download_slot cfg req (Dict.del req.meta "splash")
      ((Dict.get so "slot_policy").getD (.vStr cfg.slot_policy)))
    (Dict.set so "args" (.vDict [])) req.headers purl host port es hpp hhs rfl
  have hmain := process_request_eq_rewrite cfg req so hm hsp hne
  rw [rewriteSplash_noargs_proxy cfg req so (.vStr purl) _ _ _ hargs hproxy htruthy hsetup]
    at hmain
  have hat : applyTimeout
      (Dict.del (set_download_slot cfg req (Dict.del req.meta "splash")
        ((Dict.get so "slot_policy").getD (.vStr cfg.slot_policy))) "proxy")
      (Dict.set [("url", .vStr req.url)] "lua_source"
        (.vStr (proxyScript host (toString port) (String.intercalate ",\n" es) "nil"))) =
      Except.ok (Dict.del (set_download_slot cfg req (Dict.del req.meta "splash")
        ((Dict.get so "slot_policy").getD (.vStr cfg.slot_policy))) "proxy") := by
    simp [applyTimeout, Dict.get, Dict.set]
  have hend2 : Dict.get (Dict.set (Dict.set so "args" (.vDict [])) "endpoint"
      (.vStr "execute")) "endpoint" = some (.vStr "execute") :=
    Dict.get_set_self _ _ _
  have hsu2 : Dict.get (Dict.set (Dict.set so "args" (.vDict [])) "endpoint"
      (.vStr "execute")) "splash_url" = none := by
    rw [Dict.get_set_ne _ _ _ _ (by decide), Dict.get_set_ne _ _ _ _ (by decide)]
    exact hsu
  have hov2 : Dict.get (Dict.set (Dict.set so "args" (.vDict [])) "endpoint"
      (.vStr "execute")) "meta" = none := by
    rw [Dict.get_set_ne _ _ _ _ (by decide), Dict.get_set_ne _ _ _ _ (by decide)]
    exact hov
  rw [finishRewrite_spec_endpoint cfg _ _ _ _ "execute" hat hend2 hsu2 hov2] at hmain
  refine ⟨_, _, _, _, _, hmain, rfl, ?_, Dict.get_set_self _ _ _, ?_, Dict.get_set_self _ _ _,
    Dict.get_set_self _ _ _,
    proxyScript_mentions_host host (toString port) (String.intercalate ",\n" es) "nil",
    proxyScript_mentions_port host (toString port) (String.intercalate ",\n" es) "nil",
    rfl, rfl⟩
  · rw [Dict.get_set_ne _ _ _ _ (by decide), Dict.get_del_self]
  · rw [Dict.get_set_ne _ _ _ _ (by decide)]
    exact hend2

theorem claim_C5_witness :
    Dict.get [("splash", Val.vDict [("cache", Val.vBool true)]),
              ("proxy", Val.vStr "http://10.0.0.1:3128")] "splash" =
      some (Val.vDict [("cache", Val.vBool true)]) ∧
    parseHostPort "http://10.0.0.1:3128" = Except.ok (some "10.0.0.1", some 3128) ∧
    headerLuaEntries [("X-Hdr", ["v1", "v2"])] = Except.ok ["[\"X-Hdr\"] = \"v1\""] ∧
    (∃ out r soF aF s,
      process_request ⟨"http://127.0.0.1:8050", "scrapy_default", none, fun _ => "s"⟩
        ⟨"http://example.com/", "GET", [("X-Hdr", ["v1", "v2"])], "",
         [("splash", Val.vDict [("cache", Val.vBool true)]),
          ("proxy", Val.vStr "http://10.0.0.1:3128")]⟩ = Except.ok out ∧
      out.result = .rewritten r ∧
      Dict.get out.reqMeta "proxy" = none ∧
      Dict.get out.reqMeta "_splash_processed" = some (.vDict soF) ∧
      Dict.get soF "endpoint" = some (.vStr "execute") ∧
      Dict.get soF "args" = some (.vDict aF) ∧
      Dict.get aF "lua_source" = some (.vStr s) ∧
      (∃ s1 s2, s = s1 ++ (("host = \"" ++ ("10.0.0.1" ++ "\"")) ++ s2)) ∧
      (∃ s3 s4, s = s3 ++ (("port = " ++ toString 3128) ++ s4)) ∧
      out.stats = [requestCountKey "execute"] ∧
      r.meta = out.reqMeta) :=
  ⟨rfl, rfl, rfl,
    claim_C5_proxy_rewrite _ _ _ "http://10.0.0.1:3128" "10.0.0.1" 3128
      ["[\"X-Hdr\"] = \"v1\""] rfl rfl rfl rfl rfl (by decide) rfl rfl rfl rfl⟩

/-- C1 (counterexample): the options' `meta` overrides are applied to the
rewritten request's meta after the attachment is removed, so an attachment
`\x7bmeta: \x7bsplash: True\x7d\x7d` produces a rewritten request that still carries a
truthy `splash` key — the rewritten request does not satisfy "carries the
processed marker and not the attachment". -/
theorem claim_C1_counterexample :
    Except.map
      (fun out => match ProcOut.result out with
        | MwResult.rewritten r => Dict.get (Request.meta r) "splash"
        | _ => none)
      (process_request ⟨"http://127.0.0.1:8050", "scrapy_default", none, fun _ => "s"⟩
        ⟨"http://example.com/", "GET", [], "",
         [("splash", Val.vDict [("meta", Val.vDict [("splash", Val.vBool true)])])]⟩) =
      Except.ok (some (Val.vBool true)) ∧
    (Val.vBool true).truthy = true :=
  ⟨rfl, rfl⟩

/-- C1 (amended): for every GET request with a rendering-options attachment
whose `meta` overrides do not themselves set the attachment key or the
marker key, the rewritten request carries a truthy processed marker and not
the attachment, a second `process_request` on it is a no-op returning
PassThrough (same meta, no warning, no counters), and the original
request's meta holds the marker in place of the attachment. -/
theorem claim_C1_idempotence_amended (cfg : Config) (req : Request) (so : Dict)
    (out : ProcOut) (r : Request)
    (hsp : Dict.get req.meta "splash" = some (.vDict so))
    (hov : match Dict.get so "meta" with
           | some (.vDict ovd) => Dict.get ovd "splash" = none ∧
               Dict.get ovd "_splash_processed" = none
           | _ => True)
    (h : process_request cfg req = Except.ok out)
    (hr : out.result = .rewritten r) :
    Dict.get r.meta "splash" = none ∧
    (∃ soF, Dict.get r.meta "_splash_processed" = some (.vDict soF) ∧
      (Val.vDict soF).truthy = true) ∧
    Dict.get out.reqMeta "splash" = none ∧
    process_request cfg r = Except.ok ⟨.passThrough, r.meta, []⟩ := by
  obtain ⟨so0, hsp0, hm, hne, hrw⟩ := process_request_ok_rewritten_inv h hr
  rw [hsp] at hsp0
  injection hsp0 with hsp1
  injection hsp1 with hsp2
  subst hsp2
  obtain ⟨a, so1, soG, metaG, argsG, hsd, hfin, hsoG, hargsG, hmetaG⟩ :=
    rewriteSplash_inv_pointwise hrw
  obtain ⟨mt, e, so2, base, ov, hmt, hre, hrb, hro, hout⟩ := finishRewrite_inv hfin
  rw [hout] at hr
  injection hr with hreq
  subst hreq
  have hsplash_mt : Dict.get mt "splash" = none := by
    rw [applyTimeout_preserves hmt "splash" (by decide),
        hmetaG "splash" (by decide),
        get_set_download_slot_ne _ _ _ _ _ (by decide),
        Dict.get_del_self]
  have hmeta_so2 : Dict.get so2 "meta" = Dict.get so "meta" := by
    rw [resolveEndpoint_inv hre "meta" (by decide),
        Dict.get_set_ne _ _ _ _ (by decide),
        hsoG "meta" (by decide),
        setdefault_snd_eq hsd "meta" (by decide)]
  have hargs_so2 : Dict.get so2 "args" = some (.vDict argsG) := by
    rw [resolveEndpoint_inv hre "args" (by decide), Dict.get_set_self]
  have hso2_ne : so2.isEmpty = false := Dict.ne_nil_of_get_some hargs_so2
  have hovs : Dict.get ov "splash" = none ∧ Dict.get ov "_splash_processed" = none := by
    rcases resolveMetaOverride_inv hro with ⟨hnone, hovnil⟩ | hsome
    · subst hovnil
      exact ⟨rfl, rfl⟩
    · rw [hmeta_so2] at hsome
      rw [hsome] at hov
      exact hov
  have hrs : Dict.get (Dict.update (Dict.set mt "_splash_processed" (.vDict so2)) ov)
      "splash" = none := by
    rw [Dict.get_update_of_get_none _ _ _ hovs.1,
        Dict.get_set_ne _ _ _ _ (by decide), hsplash_mt]
  have hrm : Dict.get (Dict.update (Dict.set mt "_splash_processed" (.vDict so2)) ov)
      "_splash_processed" = some (.vDict so2) := by
    rw [Dict.get_update_of_get_none _ _ _ hovs.2, Dict.get_set_self]
  refine ⟨hrs, ⟨so2, hrm, by simp [Val.truthy, hso2_ne]⟩, ?_, ?_⟩
  · rw [hout]
    show Dict.get (Dict.set mt "_splash_processed" (.vDict so2)) "splash" = none
    rw [Dict.get_set_ne _ _ _ _ (by decide), hsplash_mt]
  · simp [process_request, hrs]

theorem claim_C1_witness :
    Dict.get [("splash", Val.vDict [("args", Val.vDict [])])] "splash" =
      some (Val.vDict [("args", Val.vDict [])]) ∧
    (match Dict.get [("args", Val.vDict [])] "meta" with
     | some (.vDict ovd) => Dict.get ovd "splash" = none ∧
         Dict.get ovd "_splash_processed" = none
     | _ => True) ∧
    (Dict.get [("_splash_processed", Val.vDict
        [("args", Val.vDict [("url", Val.vStr "http://w.example/")]),
         ("endpoint", Val.vStr "render.json")])] "splash" = none ∧
     (∃ soF, Dict.get [("_splash_processed", Val.vDict
          [("args", Val.vDict [("url", Val.vStr "http://w.example/")]),
           ("endpoint", Val.vStr "render.json")])] "_splash_processed" =
        some (.vDict soF) ∧ (Val.vDict soF).truthy = true) ∧
     Dict.get [("_splash_processed", Val.vDict
        [("args", Val.vDict [("url", Val.vStr "http://w.example/")]),
         ("endpoint", Val.vStr "render.json")])] "splash" = none ∧
     process_request ⟨"http://127.0.0.1:8050", "scrapy_default", none, fun _ => "s"⟩
       ⟨"http://127.0.0.1:8050/render.json", "POST", [("Content-Type", ["application/json"])],
        "\x7b\"url\": \"http://w.example/\"\x7d",
        [("_splash_processed", Val.vDict
           [("args", Val.vDict [("url", Val.vStr "http://w.example/")]),
            ("endpoint", Val.vStr "render.json")])]⟩ =
       Except.ok ⟨.passThrough,
         [("_splash_processed", Val.vDict
            [("args", Val.vDict [("url", Val.vStr "http://w.example/")]),
             ("endpoint", Val.vStr "render.json")])], []⟩) := by
  refine ⟨rfl, trivial, ?_⟩
  exact claim_C1_idempotence_amended
    ⟨"http://127.0.0.1:8050", "scrapy_default", none, fun _ => "s"⟩
    ⟨"http://w.example/", "GET", [], "", [("splash", Val.vDict [("args", Val.vDict [])])]⟩
    [("args", Val.vDict [])]
    ⟨.rewritten
        ⟨"http://127.0.0.1:8050/render.json", "POST", [("Content-Type", ["application/json"])],
         "\x7b\"url\": \"http://w.example/\"\x7d",
         [("_splash_processed", Val.vDict
            [("args", Val.vDict [("url", Val.vStr "http://w.example/")]),
             ("endpoint", Val.vStr "render.json")])]⟩,
        [("_splash_processed", Val.vDict
           [("args", Val.vDict [("url", Val.vStr "http://w.example/")]),
            ("endpoint", Val.vStr "render.json")])],
        ["splash/render.json/request_count"]⟩
    ⟨"http://127.0.0.1:8050/render.json", "POST", [("Content-Type", ["application/json"])],
     "\x7b\"url\": \"http://w.example/\"\x7d",
     [("_splash_processed", Val.vDict
        [("args", Val.vDict [("url", Val.vStr "http://w.example/")]),
         ("endpoint", Val.vStr "render.json")])]⟩
    rfl trivial rfl rfl

/-- C7: every rewritten request produced by `process_request` has an options
payload (`args`, stored under the processed marker) containing a `url`
field, equal to the caller-supplied value when present and to the original
request URL otherwise. -/
theorem claim_C7_args_url_invariant (cfg : Config) (req : Request) (out : ProcOut)
    (r : Request)
    (h : process_request cfg req = Except.ok out)
    (hr : out.result = .rewritten r) :
    ∃ so a soF aF, Dict.get req.meta "splash" = some (.vDict so) ∧
      (Dict.get so "args" = some (.vDict a) ∨ (Dict.get so "args" = none ∧ a = [])) ∧
      Dict.get out.reqMeta "_splash_processed" = some (.vDict soF) ∧
      Dict.get soF "args" = some (.vDict aF) ∧
      Dict.get aF "url" = some ((Dict.get a "url").getD (.vStr req.url)) := by
  obtain ⟨so, hsp, hm, hne, hrw⟩ := process_request_ok_rewritten_inv h hr
  obtain ⟨a, so1, soG, metaG, argsG, hsd, hfin, hsoG, hargsG, hmetaG⟩ :=
    rewriteSplash_inv_pointwise hrw
  obtain ⟨mt, e, so2, base, ov, hmt, hre, hrb, hro, hout⟩ := finishRewrite_inv hfin
  refine ⟨so, a, so2, argsG, hsp, setdefault_args_inv hsd, ?_, ?_, ?_⟩
  · rw [hout]
    exact Dict.get_set_self _ _ _
  · rw [resolveEndpoint_inv hre "args" (by decide), Dict.get_set_self]
  · rw [hargsG "url" (by decide)]
    cases hget : Dict.get a "url" with
    | some u =>
        have hk : Dict.hasKey a "url" = true := by simp [Dict.hasKey, hget]
        simp [hk, hget]
    | none =>
        have hk : Dict.hasKey a "url" = false := by simp [Dict.hasKey, hget]
        simp [hk, hget, Dict.get_set_self]

theorem claim_C7_witness :
    process_request ⟨"http://127.0.0.1:8050", "scrapy_default", none, fun _ => "s"⟩
      ⟨"http://example.org/page", "GET", [], "",
       [("splash", Val.vDict [("args", Val.vDict [("url", Val.vStr "http://override.example/")])])]⟩ =
      Except.ok ⟨.rewritten
        ⟨"http://127.0.0.1:8050/render.json", "POST", [("Content-Type", ["application/json"])],
         "\x7b\"url\": \"http://override.example/\"\x7d",
         [("_splash_processed", Val.vDict
            [("args", Val.vDict [("url", Val.vStr "http://override.example/")]),
             ("endpoint", Val.vStr "render.json")])]⟩,
        [("_splash_processed", Val.vDict
           [("args", Val.vDict [("url", Val.vStr "http://override.example/")]),
            ("endpoint", Val.vStr "render.json")])],
        ["splash/render.json/request_count"]⟩ ∧
    ProcOut.result ⟨.rewritten
        ⟨"http://127.0.0.1:8050/render.json", "POST", [("Content-Type", ["application/json"])],
         "\x7b\"url\": \"http://override.example/\"\x7d",
         [("_splash_processed", Val.vDict
            [("args", Val.vDict [("url", Val.vStr "http://override.example/")]),
             ("endpoint", Val.vStr "render.json")])]⟩,
        [("_splash_processed", Val.vDict
           [("args", Val.vDict [("url", Val.vStr "http://override.example/")]),
            ("endpoint", Val.vStr "render.json")])],
        ["splash/render.json/request_count"]⟩ = .rewritten
        ⟨"http://127.0.0.1:8050/render.json", "POST", [("Content-Type", ["application/json"])],
         "\x7b\"url\": \"http://override.example/\"\x7d",
         [("_splash_processed", Val.vDict
            [("args", Val.vDict [("url", Val.vStr "http://override.example/")]),
             ("endpoint", Val.vStr "render.json")])]⟩ ∧
    (∃ so a soF aF,
      Dict.get [("splash", Val.vDict [("args", Val.vDict [("url", Val.vStr "http://override.example/")])])]
        "splash" = some (.vDict so) ∧
      (Dict.get so "args" = some (.vDict a) ∨ (Dict.get so "args" = none ∧ a = [])) ∧
      Dict.get [("_splash_processed", Val.vDict
          [("args", Val.vDict [("url", Val.vStr "http://override.example/")]),
           ("endpoint", Val.vStr "render.json")])] "_splash_processed" = some (.vDict soF) ∧
      Dict.get soF "args" = some (.vDict aF) ∧
      Dict.get aF "url" = some ((Dict.get a "url").getD (.vStr "http://example.org/page"))) := by
  refine ⟨rfl, rfl, ?_⟩
  exact claim_C7_args_url_invariant
    ⟨"http://127.0.0.1:8050", "scrapy_default", none, fun _ => "s"⟩
    ⟨"http://example.org/page", "GET", [], "",
     [("splash", Val.vDict [("args", Val.vDict [("url", Val.vStr "http://override.example/")])])]⟩
    ⟨.rewritten
        ⟨"http://127.0.0.1:8050/render.json", "POST", [("Content-Type", ["application/json"])],
         "\x7b\"url\": \"http://override.example/\"\x7d",
         [("_splash_processed", Val.vDict
            [("args", Val.vDict [("url", Val.vStr "http://override.example/")]),
             ("endpoint", Val.vStr "render.json")])]⟩,
        [("_splash_processed", Val.vDict
           [("args", Val.vDict [("url", Val.vStr "http://override.example/")]),
            ("endpoint", Val.vStr "render.json")])],
        ["splash/render.json/request_count"]⟩
    ⟨"http://127.0.0.1:8050/render.json", "POST", [("Content-Type", ["application/json"])],
     "\x7b\"url\": \"http://override.example/\"\x7d",
     [("_splash_processed", Val.vDict
        [("args", Val.vDict [("url", Val.vStr "http://override.example/")]),
         ("endpoint", Val.vStr "render.json")])]⟩
    rfl rfl

/-- C9: an unknown per-request `slot_policy` string is not rejected:
rewriting proceeds normally and, exactly as for the scheduler-default
policy, no `download_slot` key is set in the meta of either request. -/
theorem claim_C9_unknown_slot_policy_ignored (cfg : Config) (req : Request) (so : Dict)
    (p : String)
    (hm : req.method = "GET")
    (hsp : Dict.get req.meta "splash" = some (.vDict so))
    (hpol : Dict.get so "slot_policy" = some (.vStr p))
    (hp1 : p ≠ "per_domain") (hp2 : p ≠ "single_slot") (_hp3 : p ≠ "scrapy_default")
    (hargs : Dict.get so "args" = none)
    (hproxy : Dict.get req.meta "proxy" = none)
    (hend : Dict.get so "endpoint" = none)
    (hsu : Dict.get so "splash_url" = none)
    (hov : Dict.get so "meta" = none)
    (hds : Dict.get req.meta "download_slot" = none) :
    ∃ out r, process_request cfg req = Except.ok out ∧
      out.result = .rewritten r ∧
      Dict.get out.reqMeta "download_slot" = none ∧
      Dict.get r.meta "download_slot" = none := by
  have hne : so.isEmpty = false := Dict.ne_nil_of_get_some hpol
  have hmain := process_request_eq_rewrite cfg req so hm hsp hne
  rw [rewriteSplash_noargs_noproxy cfg req so hargs hproxy] at hmain
  rw [hpol] at hmain
  rw [show (some (Val.vStr p)).getD (.vStr cfg.slot_policy) = .vStr p from rfl] at hmain
  rw [set_download_slot_other cfg req _ p hp1 hp2] at hmain
  have hend2 : Dict.get (Dict.set so "args" (.vDict [])) "endpoint" = none := by
    rw [Dict.get_set_ne _ _ _ _ (by decide)]; exact hend
  have hsu2 : Dict.get (Dict.set so "args" (.vDict [])) "splash_url" = none := by
    rw [Dict.get_set_ne _ _ _ _ (by decide)]; exact hsu
  have hov2 : Dict.get (Dict.set so "args" (.vDict [])) "meta" = none := by
    rw [Dict.get_set_ne _ _ _ _ (by decide)]; exact hov
  have hat : applyTimeout (Dict.del req.meta "splash") [("url", .vStr req.url)] =
      Except.ok (Dict.del req.meta "splash") := by
    simp [applyTimeout, Dict.get]
  rw [finishRewrite_spec cfg _ _ _ _ hat hend2 hsu2 hov2] at hmain
  refine ⟨_, _, hmain, rfl, ?_, ?_⟩ <;>
  · rw [Dict.get_set_ne _ _ _ _ (by decide), Dict.get_del_ne _ _ _ (by decide)]
    exact hds

theorem claim_C9_witness :
    Dict.get [("splash", Val.vDict [("slot_policy", Val.vStr "weird")])] "splash" =
      some (Val.vDict [("slot_policy", Val.vStr "weird")]) ∧
    ("weird" : String) ≠ "per_domain" ∧
    (∃ out r,
      process_request ⟨"http://127.0.0.1:8050", "per_domain", none, fun _ => "s"⟩
        ⟨"http://example.com/", "GET", [], "",
         [("splash", Val.vDict [("slot_policy", Val.vStr "weird")])]⟩ = Except.ok out ∧
      out.result = .rewritten r ∧
      Dict.get out.reqMeta "download_slot" = none ∧
      Dict.get r.meta "download_slot" = none) :=
  ⟨rfl, by decide,
    claim_C9_unknown_slot_policy_ignored _ _ _ "weird" rfl rfl rfl
      (by decide) (by decide) (by decide) rfl rfl rfl rfl rfl rfl⟩

theorem claim_C4_witness :
    (("bogus" : String) ∉ SlotPolicy.known ∧
      from_crawler ⟨none, some "bogus", none, none⟩ (fun _ => "s") =
        Except.error ("NotConfigured: Incorrect slot policy: \x27" ++ "bogus" ++ "\x27")) ∧
    (("per_domain" : String) ∈ SlotPolicy.known ∧
      ∃ cfg, from_crawler ⟨none, none, none, none⟩ (fun _ => "s") = Except.ok cfg ∧
        cfg.slot_policy = "per_domain") := by
  refine ⟨⟨by decide, ?_⟩, ⟨by decide, ?_⟩⟩
  · exact (claim_C4_policy_validated_at_startup ⟨none, some "bogus", none, none⟩ (fun _ => "s")).1
      (by decide)
  · exact (claim_C4_policy_validated_at_startup ⟨none, none, none, none⟩ (fun _ => "s")).2
      (by decide)

end ScrapyJS
